import Mathlib

/-!
Shallow embedding of the STDF ingestion pipeline (`stdf_loader.py`,
`db_models.py`, `config.py`) of this repository.

The relational store is modelled as lists of rows (insertion order = query
order, auto-increment surrogate id = list length + 1; rows are never deleted
during ingestion, so this matches the SQLAlchemy autoincrement behaviour).
Record field dictionaries are modelled post-decode as structures of optional
scalar fields; Python's `x or d` on falsy values (None, 0, "") is modelled by
the `py_or_*` helpers.  The `StdfToDbSink` session state is `SinkState`; every
handler `_on_xxx` becomes `on_xxx : SinkState → XxxFd → SinkState` and the
pystdf `before_send` / `after_send` dispatch becomes `step`.
-/

/-- Python `v or d` for an optional integer field: `None` and `0` are falsy. -/
def py_or_nat (v : Option Nat) (d : Nat) : Nat :=
  match v with
  | none => d
  | some n => if n = 0 then d else n

/-- Python `a or b` for strings: the empty string is falsy. -/
def pyOrS (a b : String) : String :=
  if a = "" then b else a

/-- Python `fd.get(K) or ""` for an optional string field. -/
def py_str (v : Option String) : String := v.getD ""

/-- Python `str.strip()`: remove whitespace from both ends.  Modelled over
the underlying character list so that it evaluates by kernel reduction. -/
def py_strip (s : String) : String :=
  ⟨((s.data.dropWhile Char.isWhitespace).reverse.dropWhile Char.isWhitespace).reverse⟩

/-- `_stdf_time_to_datetime`: `None` for a missing or zero timestamp, `None`
for an out-of-range value (the `OSError`/`ValueError` branch; Python datetime
tops out at year 9999 = 253402300799 seconds), otherwise the value itself
(a valid datetime is in bijection with its epoch seconds). -/
def stdf_time_to_datetime (v : Option Nat) : Option Nat :=
  match v with
  | none => none
  | some n => if n = 0 then none else if n ≤ 253402300799 then some n else none

/-! ## Relational schema (`db_models.py`) -/

structure Company where
  id : Nat
  name : String
deriving DecidableEq

structure Product where
  id : Nat
  company_id : Nat
  name : String
deriving DecidableEq

structure Stage where
  id : Nat
  product_id : Nat
  name : String
deriving DecidableEq

structure TestProgram where
  id : Nat
  stage_id : Nat
  name : String
  revision : String
deriving DecidableEq

structure Lot where
  id : Nat
  test_program_id : Nat
  lot_id : String
  part_typ : String
  setup_t : Option Nat
  start_t : Option Nat
  finish_t : Option Nat
  tstr_typ : String
  node_nam : String
  facil_id : String
  floor_id : String
  stat_num : Option Nat
  exec_typ : String
  exec_ver : String
deriving DecidableEq

structure Wafer where
  id : Nat
  lot_id : Nat
  wafer_id : String
  head_num : Nat
  site_grp : Nat
  start_t : Option Nat
  finish_t : Option Nat
  part_cnt : Nat
  good_cnt : Nat
deriving DecidableEq

structure Die where
  id : Nat
  lot_id : Nat
  wafer_id : Option Nat
  head_num : Nat
  site_num : Nat
  x_coord : Option Int
  y_coord : Option Int
  part_id : String
  hard_bin : Option Nat
  soft_bin : Option Nat
  part_flg : Nat
  num_test : Nat
  test_t : Nat
deriving DecidableEq

structure BinRow where
  id : Nat
  die_id : Nat
  hard_bin : Nat
  soft_bin : Option Nat
  hard_bin_name : String
  soft_bin_name : String
deriving DecidableEq

structure TestSuite where
  id : Nat
  test_program_id : Nat
  name : String
deriving DecidableEq

structure TestDefinition where
  id : Nat
  test_suite_id : Nat
  test_program_id : Nat
  test_num : Nat
  test_type : String
  test_nam : String
  test_lbl : String
  exec_cnt : Option Nat
  fail_cnt : Option Nat
  alrm_cnt : Option Nat
deriving DecidableEq

/-- `TestItem` row; its surrogate id is never read by the loader and is
omitted from the model. -/
structure TestItem where
  die_id : Nat
  test_num : Nat
  test_txt : String
  test_type : String
  test_suite_id : Option Nat
  result : Option Rat
  units : String
  lo_limit : Option Rat
  hi_limit : Option Rat
  pass_fail : Option Nat
deriving DecidableEq

structure SiteEquipment where
  id : Nat
  lot_id : Nat
  head_num : Nat
  site_grp : Nat
  hand_typ : String
  hand_id : String
  card_typ : String
  card_id : String
  load_typ : String
  load_id : String
  dib_typ : String
  dib_id : String
  cabl_typ : String
  cabl_id : String
  cont_typ : String
  cont_id : String
deriving DecidableEq

/-- The persisted relational store: one list per table. -/
structure Store where
  companies : List Company := []
  products : List Product := []
  stages : List Stage := []
  test_programs : List TestProgram := []
  lots : List Lot := []
  wafers : List Wafer := []
  dies : List Die := []
  bins : List BinRow := []
  test_suites : List TestSuite := []
  test_definitions : List TestDefinition := []
  test_items : List TestItem := []
  site_equipment : List SiteEquipment := []
deriving DecidableEq

/-! ## Record field dictionaries (post-decode, optional scalars) -/

structure MirFd where
  LOT_ID : Option String := none
  PART_TYP : Option String := none
  JOB_NAM : Option String := none
  JOB_REV : Option String := none
  MODE_COD : Option String := none
  SETUP_T : Option Nat := none
  START_T : Option Nat := none
  TSTR_TYP : Option String := none
  NODE_NAM : Option String := none
  FACIL_ID : Option String := none
  FLOOR_ID : Option String := none
  STAT_NUM : Option Nat := none
  EXEC_TYP : Option String := none
  EXEC_VER : Option String := none
deriving DecidableEq

structure MrrFd where
  FINISH_T : Option Nat := none
deriving DecidableEq

structure WirFd where
  WAFER_ID : Option String := none
  HEAD_NUM : Option Nat := none
  SITE_GRP : Option Nat := none
  START_T : Option Nat := none
deriving DecidableEq

structure WrrFd where
  FINISH_T : Option Nat := none
  PART_CNT : Option Nat := none
  GOOD_CNT : Option Nat := none
deriving DecidableEq

structure PirFd where
  HEAD_NUM : Option Nat := none
  SITE_NUM : Option Nat := none
deriving DecidableEq

structure PrrFd where
  HEAD_NUM : Option Nat := none
  SITE_NUM : Option Nat := none
  PART_FLG : Option Nat := none
  NUM_TEST : Option Nat := none
  HARD_BIN : Option Nat := none
  SOFT_BIN : Option Nat := none
  X_COORD : Option Int := none
  Y_COORD : Option Int := none
  TEST_T : Option Nat := none
  PART_ID : Option String := none
deriving DecidableEq

structure PtrFd where
  TEST_NUM : Option Nat := none
  TEST_FLG : Option Nat := none
  RESULT : Option Rat := none
  TEST_TXT : Option String := none
  UNITS : Option String := none
  LO_LIMIT : Option Rat := none
  HI_LIMIT : Option Rat := none
deriving DecidableEq

structure FtrFd where
  TEST_NUM : Option Nat := none
  TEST_FLG : Option Nat := none
  TEST_TXT : Option String := none
deriving DecidableEq

structure HbrFd where
  HEAD_NUM : Option Nat := none
  SITE_NUM : Option Nat := none
  HBIN_NUM : Option Nat := none
  HBIN_NAM : Option String := none
deriving DecidableEq

structure SbrFd where
  HEAD_NUM : Option Nat := none
  SITE_NUM : Option Nat := none
  SBIN_NUM : Option Nat := none
  SBIN_NAM : Option String := none
deriving DecidableEq

structure TsrFd where
  SEQ_NAME : Option String := none
  TEST_NUM : Option Nat := none
  TEST_TYP : Option String := none
  TEST_NAM : Option String := none
  TEST_LBL : Option String := none
  EXEC_CNT : Option Nat := none
  FAIL_CNT : Option Nat := none
  ALRM_CNT : Option Nat := none
deriving DecidableEq

structure SdrFd where
  HEAD_NUM : Option Nat := none
  SITE_GRP : Option Nat := none
  HAND_TYP : Option String := none
  HAND_ID : Option String := none
  CARD_TYP : Option String := none
  CARD_ID : Option String := none
  LOAD_TYP : Option String := none
  LOAD_ID : Option String := none
  DIB_TYP : Option String := none
  DIB_ID : Option String := none
  CABL_TYP : Option String := none
  CABL_ID : Option String := none
  CONT_TYP : Option String := none
  CONT_ID : Option String := none
deriving DecidableEq

/-- A buffered result record (`self._ptr_ftr_buffer` entry), tagged by kind. -/
inductive BufItem where
  | ptr (fd : PtrFd)
  | ftr (fd : FtrFd)
deriving DecidableEq

/-- One record of the typed STDF event stream (the sum of record kinds the
sink dispatches on; everything else is a no-op `unknown`). -/
inductive StdfRec where
  | mir (fd : MirFd)
  | mrr (fd : MrrFd)
  | wir (fd : WirFd)
  | wrr (fd : WrrFd)
  | pir (fd : PirFd)
  | prr (fd : PrrFd)
  | ptr (fd : PtrFd)
  | ftr (fd : FtrFd)
  | hbr (fd : HbrFd)
  | sbr (fd : SbrFd)
  | tsr (fd : TsrFd)
  | sdr (fd : SdrFd)
  | unknown
deriving DecidableEq

/-! ## Bin-name registry and suite registry -/

/-- `self._hard_bin_names` / `self._soft_bin_names`: association list from
`(head_num, site_num)` and bin code to name; insertion at the front shadows
older entries, matching Python dict overwrite. -/
abbrev BinMap := List ((Nat × Nat) × Option Nat × String)

def lookup_bin (names : BinMap) (key : Nat × Nat) (bin_num : Option Nat) :
    Option String :=
  (names.find? (fun e => decide (e.1 = key ∧ e.2.1 = bin_num))).map (fun e => e.2.2)

/-- `StdfToDbSink._get_bin_name` (the registry is passed explicitly; the
`is_hard` flag in the source merely selects which registry to pass). -/
def get_bin_name (names : BinMap) (head_num site_num : Nat) (bin_num : Option Nat) :
    String :=
  match lookup_bin names (head_num, site_num) bin_num with
  | some n => n
  | none =>
    match lookup_bin names (255, 255) bin_num with
    | some n => n
    | none => ""

/-- `self._test_num_to_suite`: test number → test-suite id, newest first. -/
def lookup_suite (m : List (Nat × Nat)) (test_num : Nat) : Option Nat :=
  (m.find? (fun e => decide (e.1 = test_num))).map (fun e => e.2)

/-! ## Session state -/

/-- The mutable fields of `StdfToDbSink` plus the persisted store the session
writes through.  ORM object references are modelled by row ids. -/
structure SinkState where
  store : Store
  company_name : String
  product_name : String
  stage_name : String
  company : Option Nat
  product : Option Nat
  stage : Option Nat
  test_program : Option Nat
  lot : Option Nat
  wafer : Option Nat
  current_die_key : Option (Nat × Nat)
  current_die : Option Nat
  ptr_ftr_buffer : List BufItem
  wafer_id_current : Option String
  head_num : Nat
  site_num : Nat
  hard_bin_names : BinMap
  soft_bin_names : BinMap
  test_num_to_suite : List (Nat × Nat)
deriving DecidableEq

/-- `StdfToDbSink.__init__` composed with the `config.py` defaults
(`DEFAULT_COMPANY = "DefaultCompany"`, `DEFAULT_PRODUCT = DEFAULT_STAGE = ""`
absent environment overrides). -/
def init_state (company_name product_name stage_name : Option String) : SinkState :=
  { store := {}
    company_name := pyOrS (py_str company_name) "DefaultCompany"
    product_name := pyOrS (py_str product_name) ""
    stage_name := pyOrS (py_str stage_name) ""
    company := none, product := none, stage := none, test_program := none
    lot := none, wafer := none, current_die_key := none, current_die := none
    ptr_ftr_buffer := [], wafer_id_current := none
    head_num := 1, site_num := 1
    hard_bin_names := [], soft_bin_names := [], test_num_to_suite := [] }

/-! ## Upsert-or-create store operations (`session.query(...).first()` with
autoflush; a create appends a row with the next surrogate id) -/

def get_or_create_company (st : Store) (name : String) : Store × Nat :=
  match st.companies.find? (fun c => decide (c.name = name)) with
  | some c => (st, c.id)
  | none =>
    let c : Company := { id := st.companies.length + 1, name := name }
    ({ st with companies := st.companies ++ [c] }, c.id)

def get_or_create_product (st : Store) (company_id : Nat) (name : String) :
    Store × Nat :=
  match st.products.find? (fun p => decide (p.company_id = company_id ∧ p.name = name)) with
  | some p => (st, p.id)
  | none =>
    let p : Product := { id := st.products.length + 1, company_id := company_id, name := name }
    ({ st with products := st.products ++ [p] }, p.id)

def get_or_create_stage (st : Store) (product_id : Nat) (name : String) :
    Store × Nat :=
  match st.stages.find? (fun g => decide (g.product_id = product_id ∧ g.name = name)) with
  | some g => (st, g.id)
  | none =>
    let g : Stage := { id := st.stages.length + 1, product_id := product_id, name := name }
    ({ st with stages := st.stages ++ [g] }, g.id)

def get_or_create_test_program (st : Store) (stage_id : Nat) (name revision : String) :
    Store × Nat :=
  match st.test_programs.find?
      (fun p => decide (p.stage_id = stage_id ∧ p.name = name ∧ p.revision = revision)) with
  | some p => (st, p.id)
  | none =>
    let p : TestProgram :=
      { id := st.test_programs.length + 1, stage_id := stage_id,
        name := name, revision := revision }
    ({ st with test_programs := st.test_programs ++ [p] }, p.id)

def get_or_create_lot (st : Store) (test_program_id : Nat) (lot_id : String)
    (part_typ : String) (setup_t start_t : Option Nat)
    (tstr_typ node_nam facil_id floor_id : String) (stat_num : Option Nat)
    (exec_typ exec_ver : String) : Store × Nat :=
  match st.lots.find?
      (fun l => decide (l.test_program_id = test_program_id ∧ l.lot_id = lot_id)) with
  | some l => (st, l.id)
  | none =>
    let l : Lot :=
      { id := st.lots.length + 1, test_program_id := test_program_id, lot_id := lot_id,
        part_typ := part_typ, setup_t := setup_t, start_t := start_t, finish_t := none,
        tstr_typ := tstr_typ, node_nam := node_nam, facil_id := facil_id,
        floor_id := floor_id, stat_num := stat_num,
        exec_typ := exec_typ, exec_ver := exec_ver }
    ({ st with lots := st.lots ++ [l] }, l.id)

def get_or_create_wafer (st : Store) (lot_id : Nat) (wafer_id : String)
    (head_num site_grp : Nat) (start_t : Option Nat) : Store × Nat :=
  match st.wafers.find?
      (fun w => decide (w.lot_id = lot_id ∧ w.wafer_id = wafer_id ∧ w.head_num = head_num)) with
  | some w => (st, w.id)
  | none =>
    let w : Wafer :=
      { id := st.wafers.length + 1, lot_id := lot_id, wafer_id := wafer_id,
        head_num := head_num, site_grp := site_grp, start_t := start_t,
        finish_t := none, part_cnt := 0, good_cnt := 0 }
    ({ st with wafers := st.wafers ++ [w] }, w.id)

def get_or_create_test_suite (st : Store) (test_program_id : Nat) (name : String) :
    Store × Nat :=
  match st.test_suites.find?
      (fun u => decide (u.test_program_id = test_program_id ∧ u.name = name)) with
  | some u => (st, u.id)
  | none =>
    let u : TestSuite :=
      { id := st.test_suites.length + 1, test_program_id := test_program_id, name := name }
    ({ st with test_suites := st.test_suites ++ [u] }, u.id)

def get_or_create_test_definition (st : Store) (test_program_id test_suite_id test_num : Nat)
    (test_type test_nam test_lbl : String) (exec_cnt fail_cnt alrm_cnt : Option Nat) :
    Store × Nat :=
  match st.test_definitions.find?
      (fun d => decide (d.test_program_id = test_program_id ∧ d.test_num = test_num)) with
  | some d => (st, d.id)
  | none =>
    let d : TestDefinition :=
      { id := st.test_definitions.length + 1, test_suite_id := test_suite_id,
        test_program_id := test_program_id, test_num := test_num,
        test_type := test_type, test_nam := test_nam, test_lbl := test_lbl,
        exec_cnt := exec_cnt, fail_cnt := fail_cnt, alrm_cnt := alrm_cnt }
    ({ st with test_definitions := st.test_definitions ++ [d] }, d.id)

def get_or_create_site_equipment (st : Store) (lot_id head_num site_grp : Nat)
    (hand_typ hand_id card_typ card_id load_typ load_id
     dib_typ dib_id cabl_typ cabl_id cont_typ cont_id : String) : Store × Nat :=
  match st.site_equipment.find?
      (fun e => decide (e.lot_id = lot_id ∧ e.head_num = head_num ∧ e.site_grp = site_grp)) with
  | some e => (st, e.id)
  | none =>
    let e : SiteEquipment :=
      { id := st.site_equipment.length + 1, lot_id := lot_id,
        head_num := head_num, site_grp := site_grp,
        hand_typ := hand_typ, hand_id := hand_id, card_typ := card_typ, card_id := card_id,
        load_typ := load_typ, load_id := load_id, dib_typ := dib_typ, dib_id := dib_id,
        cabl_typ := cabl_typ, cabl_id := cabl_id, cont_typ := cont_typ, cont_id := cont_id }
    ({ st with site_equipment := st.site_equipment ++ [e] }, e.id)

/-! ## Record handlers -/

/-- `StdfToDbSink._get_or_create_company_product_stage_program`; also returns
the resolved test-program id (the source keeps it in `self._test_program`). -/
def get_or_create_hierarchy (s : SinkState) (job_nam job_rev part_typ mode_cod : String) :
    SinkState × Nat :=
  let r1 := get_or_create_company s.store s.company_name
  let product_name := pyOrS (py_strip (pyOrS part_typ s.product_name)) "DefaultProduct"
  let r2 := get_or_create_product r1.1 r1.2 product_name
  let stage_name := pyOrS (py_strip (pyOrS mode_cod s.stage_name)) "DefaultStage"
  let r3 := get_or_create_stage r2.1 r2.2 stage_name
  let prog_name := pyOrS (py_strip job_nam) "DefaultProgram"
  let prog_rev := py_strip job_rev
  let r4 := get_or_create_test_program r3.1 r3.2 prog_name prog_rev
  ({ s with store := r4.1, company := some r1.2, product := some r2.2,
            stage := some r3.2, test_program := some r4.2 }, r4.2)

/-- `StdfToDbSink._on_mir`. -/
def on_mir (s : SinkState) (fd : MirFd) : SinkState :=
  let lot_id := pyOrS (py_strip (py_str fd.LOT_ID)) "UNKNOWN_LOT"
  let part_typ := py_str fd.PART_TYP
  let job_nam := py_str fd.JOB_NAM
  let job_rev := py_str fd.JOB_REV
  let mode_cod := py_str fd.MODE_COD
  let tstr_typ := (py_strip (py_str fd.TSTR_TYP)).take 64
  let node_nam := (py_strip (py_str fd.NODE_NAM)).take 64
  let facil_id := (py_strip (py_str fd.FACIL_ID)).take 64
  let floor_id := (py_strip (py_str fd.FLOOR_ID)).take 64
  let exec_typ := (py_strip (py_str fd.EXEC_TYP)).take 64
  let exec_ver := (py_strip (py_str fd.EXEC_VER)).take 64
  let rh := get_or_create_hierarchy s job_nam job_rev part_typ mode_cod
  let rl := get_or_create_lot rh.1.store rh.2 lot_id (py_strip part_typ)
      (stdf_time_to_datetime fd.SETUP_T) (stdf_time_to_datetime fd.START_T)
      tstr_typ node_nam facil_id floor_id fd.STAT_NUM exec_typ exec_ver
  { rh.1 with
    store := rl.1, lot := some rl.2,
    wafer := none, wafer_id_current := none,
    current_die := none, current_die_key := none,
    ptr_ftr_buffer := [],
    hard_bin_names := [], soft_bin_names := [], test_num_to_suite := [] }

/-- `StdfToDbSink._on_wir`. -/
def on_wir (s : SinkState) (fd : WirFd) : SinkState :=
  let wafer_id := pyOrS (py_strip (py_str fd.WAFER_ID)) "UNKNOWN_WAFER"
  let head_num := py_or_nat fd.HEAD_NUM 1
  let site_grp := fd.SITE_GRP.getD 255
  match s.lot with
  | none => s
  | some lot_n =>
    let rw := get_or_create_wafer s.store lot_n wafer_id head_num site_grp
        (stdf_time_to_datetime fd.START_T)
    { s with store := rw.1, wafer := some rw.2, wafer_id_current := some wafer_id,
             current_die := none, current_die_key := none, ptr_ftr_buffer := [] }

/-- `StdfToDbSink._on_wrr`: updates the current wafer row if one is open, then
sets `_wafer_id_current` (and only it) to `None`; `self._wafer` is left as is,
exactly as in the source. -/
def on_wrr (s : SinkState) (fd : WrrFd) : SinkState :=
  let finish_t := stdf_time_to_datetime fd.FINISH_T
  let st1 :=
    match s.wafer with
    | none => s.store
    | some w =>
      { s.store with wafers := s.store.wafers.map (fun wf =>
          if wf.id = w then
            { wf with finish_t := finish_t,
                      part_cnt := fd.PART_CNT.getD wf.part_cnt,
                      good_cnt := fd.GOOD_CNT.getD wf.good_cnt }
          else wf) }
  { s with store := st1, wafer_id_current := none }

/-- `StdfToDbSink._on_pir`. -/
def on_pir (s : SinkState) (fd : PirFd) : SinkState :=
  let head_num := py_or_nat fd.HEAD_NUM 1
  let site_num := py_or_nat fd.SITE_NUM 1
  { s with head_num := head_num, site_num := site_num,
           current_die_key := some (head_num, site_num),
           current_die := none, ptr_ftr_buffer := [] }

/-- Flush of one buffered result as a `TestItem` (the PTR/FTR arms of the
flush loop in `_on_prr`). -/
def mk_test_item (suite_map : List (Nat × Nat)) (die_id : Nat) : BufItem → TestItem
  | .ptr fd =>
    let test_num := py_or_nat fd.TEST_NUM 0
    let pass_fail : Option Nat :=
      match fd.TEST_FLG with
      | none => none
      | some f => some (if f &&& 128 = 0 then 0 else 1)
    { die_id := die_id, test_num := test_num,
      test_txt := (py_strip (py_str fd.TEST_TXT)).take 512,
      test_type := "PTR",
      test_suite_id := lookup_suite suite_map test_num,
      result := fd.RESULT,
      units := (py_strip (py_str fd.UNITS)).take 64,
      lo_limit := fd.LO_LIMIT, hi_limit := fd.HI_LIMIT,
      pass_fail := pass_fail }
  | .ftr fd =>
    let test_num := py_or_nat fd.TEST_NUM 0
    let pass_fail : Option Nat :=
      match fd.TEST_FLG with
      | none => none
      | some f => some (if f &&& 128 = 0 then 0 else 1)
    { die_id := die_id, test_num := test_num,
      test_txt := (py_strip (py_str fd.TEST_TXT)).take 512,
      test_type := "FTR",
      test_suite_id := lookup_suite suite_map test_num,
      result := none,
      units := "",
      lo_limit := none, hi_limit := none,
      pass_fail := pass_fail }

/-- The Die row `_on_prr` builds from the part-end record's own fields (after
sentinel normalization), referencing the active lot and the current wafer. -/
def mk_die (s : SinkState) (lot_n : Nat) (fd : PrrFd) : Die :=
  { id := s.store.dies.length + 1, lot_id := lot_n, wafer_id := s.wafer,
    head_num := py_or_nat fd.HEAD_NUM 1, site_num := py_or_nat fd.SITE_NUM 1,
    x_coord := if fd.X_COORD = some (-32768) then none else fd.X_COORD,
    y_coord := if fd.Y_COORD = some (-32768) then none else fd.Y_COORD,
    part_id := py_strip (py_str fd.PART_ID),
    hard_bin := fd.HARD_BIN,
    soft_bin := if fd.SOFT_BIN = some 65535 then none else fd.SOFT_BIN,
    part_flg := fd.PART_FLG.getD 0, num_test := py_or_nat fd.NUM_TEST 0,
    test_t := py_or_nat fd.TEST_T 0 }

/-- The open-lot branch of `StdfToDbSink._on_prr`: create the Die row, its
Bin row when a hard bin code is present (as the sublist of Bin rows the
conditional `session.add` contributes), then flush every buffered result as a
`TestItem` referencing the new Die, then clear the buffer and part key. -/
def prr_open (s : SinkState) (lot_n : Nat) (fd : PrrFd) : SinkState :=
  let head_num := py_or_nat fd.HEAD_NUM 1
  let site_num := py_or_nat fd.SITE_NUM 1
  let hard_bin := fd.HARD_BIN
  let soft_bin := if fd.SOFT_BIN = some 65535 then none else fd.SOFT_BIN
  let die : Die := mk_die s lot_n fd
  let new_bins : List BinRow :=
    match hard_bin with
    | none => []
    | some hb =>
      let hard_name := get_bin_name s.hard_bin_names head_num site_num (some hb)
      let soft_name :=
        match soft_bin with
        | some _ => get_bin_name s.soft_bin_names head_num site_num soft_bin
        | none => ""
      [{ id := s.store.bins.length + 1, die_id := die.id, hard_bin := hb,
         soft_bin := soft_bin, hard_bin_name := hard_name, soft_bin_name := soft_name }]
  let new_items := s.ptr_ftr_buffer.map (mk_test_item s.test_num_to_suite die.id)
  { s with
    store := { s.store with
               dies := s.store.dies ++ [die],
               bins := s.store.bins ++ new_bins,
               test_items := s.store.test_items ++ new_items },
    ptr_ftr_buffer := [],
    current_die := none, current_die_key := none }

/-- `StdfToDbSink._on_prr`: with no active lot the buffer is cleared and
nothing is persisted; otherwise `prr_open` runs. -/
def on_prr (s : SinkState) (fd : PrrFd) : SinkState :=
  match s.lot with
  | none => { s with ptr_ftr_buffer := [] }
  | some lot_n => prr_open s lot_n fd

/-- `StdfToDbSink._on_ptr`: unconditional append to the buffer. -/
def on_ptr (s : SinkState) (fd : PtrFd) : SinkState :=
  { s with ptr_ftr_buffer := s.ptr_ftr_buffer ++ [.ptr fd] }

/-- `StdfToDbSink._on_ftr`: unconditional append to the buffer. -/
def on_ftr (s : SinkState) (fd : FtrFd) : SinkState :=
  { s with ptr_ftr_buffer := s.ptr_ftr_buffer ++ [.ftr fd] }

/-- `StdfToDbSink._on_hbr`. -/
def on_hbr (s : SinkState) (fd : HbrFd) : SinkState :=
  match fd.HEAD_NUM with
  | none => s
  | some head_num =>
    let site_num := fd.SITE_NUM.getD 255
    let hbin_nam := (py_strip (py_str fd.HBIN_NAM))
    let stored := if hbin_nam = "" then "" else hbin_nam.take 255
    { s with hard_bin_names := ((head_num, site_num), fd.HBIN_NUM, stored) :: s.hard_bin_names }

/-- `StdfToDbSink._on_sbr`. -/
def on_sbr (s : SinkState) (fd : SbrFd) : SinkState :=
  match fd.HEAD_NUM with
  | none => s
  | some head_num =>
    let site_num := fd.SITE_NUM.getD 255
    let sbin_nam := (py_strip (py_str fd.SBIN_NAM))
    let stored := if sbin_nam = "" then "" else sbin_nam.take 255
    { s with soft_bin_names := ((head_num, site_num), fd.SBIN_NUM, stored) :: s.soft_bin_names }

/-- `StdfToDbSink._on_tsr`. -/
def on_tsr (s : SinkState) (fd : TsrFd) : SinkState :=
  let seq_name := (py_strip (py_str fd.SEQ_NAME))
  let test_typ := (py_strip (pyOrS (py_str fd.TEST_TYP) " "))
  let test_nam := (py_strip (py_str fd.TEST_NAM)).take 512
  let test_lbl := (py_strip (py_str fd.TEST_LBL)).take 255
  if seq_name = "" then s
  else
    match s.test_program with
    | none => s
    | some tp =>
      let ru := get_or_create_test_suite s.store tp seq_name
      match fd.TEST_NUM with
      | none => { s with store := ru.1 }
      | some tn =>
        let rd := get_or_create_test_definition ru.1 tp ru.2 tn
            (if test_typ = "" then "" else test_typ) test_nam test_lbl
            fd.EXEC_CNT fd.FAIL_CNT fd.ALRM_CNT
        { s with store := rd.1, test_num_to_suite := (tn, ru.2) :: s.test_num_to_suite }

/-- `StdfToDbSink._on_sdr`. -/
def on_sdr (s : SinkState) (fd : SdrFd) : SinkState :=
  match s.lot with
  | none => s
  | some lot_n =>
    let head_num := py_or_nat fd.HEAD_NUM 1
    let site_grp := fd.SITE_GRP.getD 255
    let re := get_or_create_site_equipment s.store lot_n head_num site_grp
        ((py_strip (py_str fd.HAND_TYP)).take 128) ((py_strip (py_str fd.HAND_ID)).take 128)
        ((py_strip (py_str fd.CARD_TYP)).take 128) ((py_strip (py_str fd.CARD_ID)).take 128)
        ((py_strip (py_str fd.LOAD_TYP)).take 128) ((py_strip (py_str fd.LOAD_ID)).take 128)
        ((py_strip (py_str fd.DIB_TYP)).take 128) ((py_strip (py_str fd.DIB_ID)).take 128)
        ((py_strip (py_str fd.CABL_TYP)).take 128) ((py_strip (py_str fd.CABL_ID)).take 128)
        ((py_strip (py_str fd.CONT_TYP)).take 128) ((py_strip (py_str fd.CONT_ID)).take 128)
    { s with store := re.1 }

/-- `StdfToDbSink.after_send` handling of MRR: set the current lot's finish
timestamp if a lot is active. -/
def on_mrr (s : SinkState) (fd : MrrFd) : SinkState :=
  match s.lot with
  | none => s
  | some lot_n =>
    { s with store := { s.store with lots := s.store.lots.map (fun l =>
        if l.id = lot_n then { l with finish_t := stdf_time_to_datetime fd.FINISH_T } else l) } }

/-- One record through the sink: the `before_send` dispatch (all kinds except
MRR) followed by `after_send` (MRR only). -/
def step (s : SinkState) : StdfRec → SinkState
  | .mir fd => on_mir s fd
  | .mrr fd => on_mrr s fd
  | .wir fd => on_wir s fd
  | .wrr fd => on_wrr s fd
  | .pir fd => on_pir s fd
  | .prr fd => on_prr s fd
  | .ptr fd => on_ptr s fd
  | .ftr fd => on_ftr s fd
  | .hbr fd => on_hbr s fd
  | .sbr fd => on_sbr s fd
  | .tsr fd => on_tsr s fd
  | .sdr fd => on_sdr s fd
  | .unknown => s

/-- Process a record stream in arrival order. -/
def run (s : SinkState) (rs : List StdfRec) : SinkState :=
  rs.foldl step s

/-- View a buffered result item as the stream record that produced it. -/
def BufItem.toRec : BufItem → StdfRec
  | .ptr fd => .ptr fd
  | .ftr fd => .ftr fd

/-- The raw `TEST_FLG` field of a buffered result record. -/
def BufItem.flg : BufItem → Option Nat
  | .ptr fd => fd.TEST_FLG
  | .ftr fd => fd.TEST_FLG

/-- The raw `TEST_NUM` field of a buffered result record. -/
def BufItem.num : BufItem → Option Nat
  | .ptr fd => fd.TEST_NUM
  | .ftr fd => fd.TEST_NUM

/-- Replace exactly the part buffer and the two bin-name registries of a
session state. -/
def scrub_upd (s : SinkState) (b : List BufItem) (h₁ h₂ : BinMap) : SinkState :=
  { s with ptr_ftr_buffer := b, hard_bin_names := h₁, soft_bin_names := h₂ }

/-- Observational equivalence of session states while no lot is active: the
states agree on everything except the part buffer and the bin-name
registries (all three are reset by the first lot-start before they can be
read by any persisting code path). -/
def ObsEq (s₁ s₂ : SinkState) : Prop :=
  s₁.lot = none ∧ ∃ b h₁ h₂, s₂ = scrub_upd s₁ b h₁ h₂

/-- A fresh sink as `load_stdf` builds it with no overrides. -/
def s0 : SinkState := init_state none none none

/-- A minimal lot-start record fixture. -/
def mirL1 : MirFd := { LOT_ID := some "L1", JOB_NAM := some "PROG" }

theorem run_nil (s : SinkState) : run s [] = s := rfl

theorem run_cons (s : SinkState) (r : StdfRec) (rs : List StdfRec) :
    run s (r :: rs) = run (step s r) rs := rfl

theorem run_append (s : SinkState) (l₁ l₂ : List StdfRec) :
    run s (l₁ ++ l₂) = run (run s l₁) l₂ :=
  List.foldl_append ..

theorem ObsEq.store_eq {s₁ s₂ : SinkState} (h : ObsEq s₁ s₂) : s₁.store = s₂.store := by
  obtain ⟨-, b, h₁, h₂, rfl⟩ := h
  rfl

theorem on_mrr_no_lot (s : SinkState) (fd : MrrFd) (h : s.lot = none) :
    on_mrr s fd = s := by
  unfold on_mrr; rw [h]

theorem on_wir_no_lot (s : SinkState) (fd : WirFd) (h : s.lot = none) :
    on_wir s fd = s := by
  unfold on_wir; rw [h]

theorem on_sdr_no_lot (s : SinkState) (fd : SdrFd) (h : s.lot = none) :
    on_sdr s fd = s := by
  unfold on_sdr; rw [h]

theorem on_prr_no_lot (s : SinkState) (fd : PrrFd) (h : s.lot = none) :
    on_prr s fd = { s with ptr_ftr_buffer := [] } := by
  unfold on_prr; rw [h]

theorem on_tsr_empty_seq (s : SinkState) (fd : TsrFd)
    (h : (py_strip (py_str fd.SEQ_NAME)) = "") : on_tsr s fd = s := by
  simp only [on_tsr, h, if_true]

theorem on_tsr_no_program (s : SinkState) (fd : TsrFd)
    (h1 : ¬ (py_strip (py_str fd.SEQ_NAME)) = "") (h2 : s.test_program = none) :
    on_tsr s fd = s := by
  simp only [on_tsr, if_neg h1, h2]

theorem on_tsr_no_num (s : SinkState) (fd : TsrFd) (tp : Nat)
    (h1 : ¬ (py_strip (py_str fd.SEQ_NAME)) = "") (h2 : s.test_program = some tp)
    (h3 : fd.TEST_NUM = none) :
    on_tsr s fd =
      { s with store := (get_or_create_test_suite s.store tp (py_strip (py_str fd.SEQ_NAME))).1 } := by
  simp only [on_tsr, if_neg h1, h2, h3]

theorem on_tsr_with_num (s : SinkState) (fd : TsrFd) (tp tn : Nat)
    (h1 : ¬ (py_strip (py_str fd.SEQ_NAME)) = "") (h2 : s.test_program = some tp)
    (h3 : fd.TEST_NUM = some tn) :
    on_tsr s fd =
      { s with
        store := (get_or_create_test_definition
            (get_or_create_test_suite s.store tp (py_strip (py_str fd.SEQ_NAME))).1 tp
            (get_or_create_test_suite s.store tp (py_strip (py_str fd.SEQ_NAME))).2 tn
            (if (py_strip (pyOrS (py_str fd.TEST_TYP) " ")) = "" then ""
             else (py_strip (pyOrS (py_str fd.TEST_TYP) " ")))
            ((py_strip (py_str fd.TEST_NAM)).take 512) ((py_strip (py_str fd.TEST_LBL)).take 255)
            fd.EXEC_CNT fd.FAIL_CNT fd.ALRM_CNT).1,
        test_num_to_suite :=
          (tn, (get_or_create_test_suite s.store tp (py_strip (py_str fd.SEQ_NAME))).2)
            :: s.test_num_to_suite } := by
  simp only [on_tsr, if_neg h1, h2, h3]

theorem obsEq_step {s₁ s₂ : SinkState} (h : ObsEq s₁ s₂) (r : StdfRec) :
    ObsEq (step s₁ r) (step s₂ r) ∨ step s₁ r = step s₂ r := by
  obtain ⟨hlot, b, x, y, rfl⟩ := h
  have hlot' : (scrub_upd s₁ b x y).lot = none := hlot
  cases r with
  | mir fd => right; rfl
  | mrr fd =>
    left
    rw [show step s₁ (.mrr fd) = s₁ from on_mrr_no_lot s₁ fd hlot,
        show step (scrub_upd s₁ b x y) (.mrr fd) = scrub_upd s₁ b x y from
          on_mrr_no_lot _ fd hlot']
    exact ⟨hlot, b, x, y, rfl⟩
  | wir fd =>
    left
    rw [show step s₁ (.wir fd) = s₁ from on_wir_no_lot s₁ fd hlot,
        show step (scrub_upd s₁ b x y) (.wir fd) = scrub_upd s₁ b x y from
          on_wir_no_lot _ fd hlot']
    exact ⟨hlot, b, x, y, rfl⟩
  | sdr fd =>
    left
    rw [show step s₁ (.sdr fd) = s₁ from on_sdr_no_lot s₁ fd hlot,
        show step (scrub_upd s₁ b x y) (.sdr fd) = scrub_upd s₁ b x y from
          on_sdr_no_lot _ fd hlot']
    exact ⟨hlot, b, x, y, rfl⟩
  | prr fd =>
    left
    rw [show step s₁ (.prr fd) = { s₁ with ptr_ftr_buffer := [] } from
          on_prr_no_lot s₁ fd hlot,
        show step (scrub_upd s₁ b x y) (.prr fd) =
            { scrub_upd s₁ b x y with ptr_ftr_buffer := [] } from
          on_prr_no_lot _ fd hlot']
    exact ⟨hlot, [], x, y, rfl⟩
  | wrr fd => left; exact ⟨hlot, b, x, y, rfl⟩
  | pir fd => left; exact ⟨hlot, [], x, y, rfl⟩
  | ptr fd =>
    left
    refine ⟨hlot, b ++ [BufItem.ptr fd], x, y, ?_⟩
    rfl
  | ftr fd =>
    left
    refine ⟨hlot, b ++ [BufItem.ftr fd], x, y, ?_⟩
    rfl
  | hbr fd =>
    left
    cases hh : fd.HEAD_NUM with
    | none => simp only [step, on_hbr, hh]; exact ⟨hlot, b, x, y, rfl⟩
    | some hn =>
      simp only [step, on_hbr, hh]
      exact ⟨hlot, b,
        ((hn, fd.SITE_NUM.getD 255), fd.HBIN_NUM,
          if (py_strip (py_str fd.HBIN_NAM)) = "" then ""
          else (py_strip (py_str fd.HBIN_NAM)).take 255) :: x, y, rfl⟩
  | sbr fd =>
    left
    cases hh : fd.HEAD_NUM with
    | none => simp only [step, on_sbr, hh]; exact ⟨hlot, b, x, y, rfl⟩
    | some hn =>
      simp only [step, on_sbr, hh]
      exact ⟨hlot, b, x,
        ((hn, fd.SITE_NUM.getD 255), fd.SBIN_NUM,
          if (py_strip (py_str fd.SBIN_NAM)) = "" then ""
          else (py_strip (py_str fd.SBIN_NAM)).take 255) :: y, rfl⟩
  | tsr fd =>
    left
    show ObsEq (on_tsr s₁ fd) (on_tsr (scrub_upd s₁ b x y) fd)
    by_cases hseq : (py_strip (py_str fd.SEQ_NAME)) = ""
    · rw [on_tsr_empty_seq s₁ fd hseq, on_tsr_empty_seq _ fd hseq]
      exact ⟨hlot, b, x, y, rfl⟩
    · have htp0 : (scrub_upd s₁ b x y).test_program = s₁.test_program := rfl
      cases htp : s₁.test_program with
      | none =>
        rw [on_tsr_no_program s₁ fd hseq htp,
            on_tsr_no_program _ fd hseq (htp0.trans htp)]
        exact ⟨hlot, b, x, y, rfl⟩
      | some tp =>
        cases htn : fd.TEST_NUM with
        | none =>
          rw [on_tsr_no_num s₁ fd tp hseq htp htn,
              on_tsr_no_num _ fd tp hseq (htp0.trans htp) htn]
          exact ⟨hlot, b, x, y, rfl⟩
        | some tn =>
          rw [on_tsr_with_num s₁ fd tp tn hseq htp htn,
              on_tsr_with_num _ fd tp tn hseq (htp0.trans htp) htn]
          exact ⟨hlot, b, x, y, rfl⟩
  | unknown => left; exact ⟨hlot, b, x, y, rfl⟩

theorem obsEq_run_store (rs : List StdfRec) :
    ∀ s₁ s₂, ObsEq s₁ s₂ → (run s₁ rs).store = (run s₂ rs).store := by
  induction rs with
  | nil => intro s₁ s₂ h; exact h.store_eq
  | cons r rs ih =>
    intro s₁ s₂ h
    rcases obsEq_step h r with h' | h'
    · rw [run_cons, run_cons]; exact ih _ _ h'
    · rw [run_cons, run_cons, h']

theorem on_prr_with_lot (s : SinkState) (lot_n : Nat) (fd : PrrFd)
    (h : s.lot = some lot_n) : on_prr s fd = prr_open s lot_n fd := by
  simp only [on_prr, h]

/-- C3: a parametric-result, functional-result, or hard/soft-bin-summary
record processed while no lot is active is ignored: the persisted store is
unchanged immediately, and — whatever the rest of the stream is — the final
persisted store is exactly what it would have been had the record never been
processed, so no subsequently created row can depend on it; processing is
total, so ingestion continues without error. -/
theorem c3_no_lot_result_summary_ignored (s : SinkState) (r : StdfRec)
    (hlot : s.lot = none)
    (hr : (∃ fd, r = StdfRec.ptr fd) ∨ (∃ fd, r = StdfRec.ftr fd) ∨
          (∃ fd, r = StdfRec.hbr fd) ∨ (∃ fd, r = StdfRec.sbr fd)) :
    (step s r).store = s.store ∧
    ∀ rest : List StdfRec, (run (step s r) rest).store = (run s rest).store := by
  have hobs : ObsEq (step s r) s := by
    rcases hr with ⟨fd, rfl⟩ | ⟨fd, rfl⟩ | ⟨fd, rfl⟩ | ⟨fd, rfl⟩
    · exact ⟨hlot, s.ptr_ftr_buffer, s.hard_bin_names, s.soft_bin_names, rfl⟩
    · exact ⟨hlot, s.ptr_ftr_buffer, s.hard_bin_names, s.soft_bin_names, rfl⟩
    · cases hh : fd.HEAD_NUM with
      | none =>
        simp only [step, on_hbr, hh]
        exact ⟨hlot, s.ptr_ftr_buffer, s.hard_bin_names, s.soft_bin_names, rfl⟩
      | some hn =>
        simp only [step, on_hbr, hh]
        exact ⟨hlot, s.ptr_ftr_buffer, s.hard_bin_names, s.soft_bin_names, rfl⟩
    · cases hh : fd.HEAD_NUM with
      | none =>
        simp only [step, on_sbr, hh]
        exact ⟨hlot, s.ptr_ftr_buffer, s.hard_bin_names, s.soft_bin_names, rfl⟩
      | some hn =>
        simp only [step, on_sbr, hh]
        exact ⟨hlot, s.ptr_ftr_buffer, s.hard_bin_names, s.soft_bin_names, rfl⟩
  exact ⟨hobs.store_eq, fun rest => obsEq_run_store rest _ _ hobs⟩

/-- Witness for C3: a hard-bin-summary record arriving before any lot-start
leaves the final store of a concrete continued stream unchanged. -/
theorem c3_no_lot_result_summary_ignored_witness :
    s0.lot = none ∧
    (run (step s0 (StdfRec.hbr { HEAD_NUM := some 1, HBIN_NUM := some 5, HBIN_NAM := some "X" }))
        [StdfRec.mir mirL1, StdfRec.prr { HARD_BIN := some 5 }]).store =
      (run s0 [StdfRec.mir mirL1, StdfRec.prr { HARD_BIN := some 5 }]).store :=
  ⟨rfl,
    (c3_no_lot_result_summary_ignored s0 _ rfl
      (Or.inr (Or.inr (Or.inl ⟨_, rfl⟩)))).2 _⟩

/-- C5: processing a lot-start record resets all per-lot transient state:
afterwards the current-wafer reference is cleared, the part buffer, both
bin-name registries and the test-number-to-suite registry are empty, and
consequently every bin-name lookup on the new state returns the empty string
and every suite lookup returns nothing, so no mapping registered under a
previous lot can resolve for a die created under the new lot. -/
theorem c5_mir_resets_transient_state (s : SinkState) (fd : MirFd) :
    (on_mir s fd).wafer = none ∧
    (on_mir s fd).ptr_ftr_buffer = [] ∧
    (on_mir s fd).hard_bin_names = [] ∧
    (on_mir s fd).soft_bin_names = [] ∧
    (on_mir s fd).test_num_to_suite = [] ∧
    (∀ h st b, get_bin_name (on_mir s fd).hard_bin_names h st b = "") ∧
    (∀ h st b, get_bin_name (on_mir s fd).soft_bin_names h st b = "") ∧
    (∀ tn, lookup_suite (on_mir s fd).test_num_to_suite tn = none) := by
  refine ⟨rfl, rfl, rfl, rfl, rfl, ?_, ?_, ?_⟩ <;> intros <;> rfl

/-- C10: result records are buffered unconditionally — a parametric or
functional result is appended to the part buffer in every state, whether or
not a part or even a lot is open; a part-start clears the buffer and makes the
pre-existing buffer contents irrelevant to the entire subsequent run; and a
part-end processed with an active lot and no open part key flushes the
buffered results as TestItems of the Die it creates. -/
theorem c10_unconditional_buffering :
    (∀ (s : SinkState) (fd : PtrFd),
        step s (StdfRec.ptr fd) =
          { s with ptr_ftr_buffer := s.ptr_ftr_buffer ++ [BufItem.ptr fd] }) ∧
    (∀ (s : SinkState) (fd : FtrFd),
        step s (StdfRec.ftr fd) =
          { s with ptr_ftr_buffer := s.ptr_ftr_buffer ++ [BufItem.ftr fd] }) ∧
    (∀ (s : SinkState) (b : List BufItem) (fd : PirFd),
        (step s (StdfRec.pir fd)).ptr_ftr_buffer = [] ∧
        step { s with ptr_ftr_buffer := b } (StdfRec.pir fd) = step s (StdfRec.pir fd)) ∧
    (∀ (s : SinkState) (lot_n : Nat) (fd : PrrFd),
        s.lot = some lot_n → s.current_die_key = none →
        (step s (StdfRec.prr fd)).store.test_items =
          s.store.test_items ++
            s.ptr_ftr_buffer.map (mk_test_item s.test_num_to_suite (s.store.dies.length + 1))) := by
  refine ⟨fun s fd => rfl, fun s fd => rfl, fun s b fd => ⟨rfl, rfl⟩, ?_⟩
  intro s lot_n fd h _
  show (on_prr s fd).store.test_items = _
  rw [on_prr_with_lot s lot_n fd h]
  rfl

/-- Witness for C10: applying the flush clause at a concrete state (a lot-start
followed by one buffered result and no part-start). -/
theorem c10_unconditional_buffering_witness :
    (run s0 [StdfRec.mir mirL1, StdfRec.ptr { TEST_NUM := some 7 }]).lot = some 1 ∧
    (run s0 [StdfRec.mir mirL1, StdfRec.ptr { TEST_NUM := some 7 }]).current_die_key = none ∧
    (step (run s0 [StdfRec.mir mirL1, StdfRec.ptr { TEST_NUM := some 7 }])
        (StdfRec.prr {})).store.test_items =
      (run s0 [StdfRec.mir mirL1, StdfRec.ptr { TEST_NUM := some 7 }]).store.test_items ++
        (run s0 [StdfRec.mir mirL1, StdfRec.ptr { TEST_NUM := some 7 }]).ptr_ftr_buffer.map
          (mk_test_item
            (run s0 [StdfRec.mir mirL1, StdfRec.ptr { TEST_NUM := some 7 }]).test_num_to_suite
            ((run s0 [StdfRec.mir mirL1, StdfRec.ptr { TEST_NUM := some 7 }]).store.dies.length + 1)) :=
  ⟨rfl, rfl,
    c10_unconditional_buffering.2.2.2
      (run s0 [StdfRec.mir mirL1, StdfRec.ptr { TEST_NUM := some 7 }]) 1 {} rfl rfl⟩

set_option maxRecDepth 8000 in
/-- C4: bin-name resolution is a two-level fallback — an exact
`(head, site)` registration wins, otherwise the `(255, 255)` all-sites
summary registration is used, otherwise the empty string is returned; and in
the concrete scenario with a per-site name "PASS" for (1, 1) and a summary
name "GOOD" under (255, 255) for the same code, a die at (1, 1) resolves to
"PASS" while a die at (1, 2) resolves to "GOOD". -/
theorem c4_bin_name_two_level_fallback :
    (∀ (names : BinMap) (h st : Nat) (b : Option Nat) (nm : String),
        lookup_bin names (h, st) b = some nm → get_bin_name names h st b = nm) ∧
    (∀ (names : BinMap) (h st : Nat) (b : Option Nat) (nm : String),
        lookup_bin names (h, st) b = none →
        lookup_bin names (255, 255) b = some nm → get_bin_name names h st b = nm) ∧
    (∀ (names : BinMap) (h st : Nat) (b : Option Nat),
        lookup_bin names (h, st) b = none →
        lookup_bin names (255, 255) b = none → get_bin_name names h st b = "") ∧
    ((run s0 [StdfRec.mir mirL1,
        StdfRec.hbr { HEAD_NUM := some 1, SITE_NUM := some 1,
                      HBIN_NUM := some 5, HBIN_NAM := some "PASS" },
        StdfRec.hbr { HEAD_NUM := some 255, HBIN_NUM := some 5, HBIN_NAM := some "GOOD" },
        StdfRec.prr { HEAD_NUM := some 1, SITE_NUM := some 1, HARD_BIN := some 5 },
        StdfRec.prr { HEAD_NUM := some 1, SITE_NUM := some 2, HARD_BIN := some 5 }]).store.bins.map
          (fun b => (b.die_id, b.hard_bin_name)) = [(1, "PASS"), (2, "GOOD")]) := by
  refine ⟨?_, ?_, ?_, by decide⟩
  · intro names h st b nm h1
    unfold get_bin_name
    rw [h1]
  · intro names h st b nm h1 h2
    unfold get_bin_name
    rw [h1, h2]
  · intro names h st b h1 h2
    unfold get_bin_name
    rw [h1, h2]

/-- Witness for C4: the exact-key clause applied at a concrete registry. -/
theorem c4_bin_name_two_level_fallback_witness :
    lookup_bin [((1, 1), some 5, "PASS")] (1, 1) (some 5) = some "PASS" ∧
    get_bin_name [((1, 1), some 5, "PASS")] 1 1 (some 5) = "PASS" :=
  ⟨by decide, c4_bin_name_two_level_fallback.1 _ 1 1 _ _ (by decide)⟩

theorem prr_open_dies (s : SinkState) (lot_n : Nat) (fd : PrrFd) :
    (prr_open s lot_n fd).store.dies = s.store.dies ++ [mk_die s lot_n fd] := rfl

theorem prr_open_test_items (s : SinkState) (lot_n : Nat) (fd : PrrFd) :
    (prr_open s lot_n fd).store.test_items =
      s.store.test_items ++
        s.ptr_ftr_buffer.map (mk_test_item s.test_num_to_suite (s.store.dies.length + 1)) := rfl

/-- C1 (code bug): per the spec a wafer-end record closes the wafer context,
so a part-end processed after a wafer-end and before any new wafer-start
should yield a Die with a null wafer reference.  The source clears only the
dead variable `_wafer_id_current` in `_on_wrr` and leaves `self._wafer` set,
so on the stream lot-start, wafer-start, wafer-end, part-end the current
wafer is still open after the wafer-end and the created Die carries a
non-null wafer reference. -/
theorem c1_wafer_ref_still_set_after_wrr :
    (run s0 [StdfRec.mir mirL1, StdfRec.wir { WAFER_ID := some "W1" },
             StdfRec.wrr {}]).wafer = some 1 ∧
    (run s0 [StdfRec.mir mirL1, StdfRec.wir { WAFER_ID := some "W1" },
             StdfRec.wrr {}]).wafer_id_current = none ∧
    (run s0 [StdfRec.mir mirL1, StdfRec.wir { WAFER_ID := some "W1" }, StdfRec.wrr {},
             StdfRec.prr {}]).store.dies.map (fun d => d.wafer_id) = [some 1] := by
  refine ⟨rfl, rfl, by decide⟩

/-- C2 (counterexample): on the stream lot-start, part-start, part-end,
result, part-end, the second part-end arrives with no open part key, an
active lot and one stale buffered result — yet the flush creates a TestItem
for the new Die (die 2) from that stale buffer, contradicting the claim that
the stale buffer is discarded. -/
theorem c2_stale_buffer_flushed_counterexample :
    (run s0 [StdfRec.mir mirL1, StdfRec.pir {}, StdfRec.prr {},
             StdfRec.ptr { TEST_NUM := some 7 }]).current_die_key = none ∧
    (run s0 [StdfRec.mir mirL1, StdfRec.pir {}, StdfRec.prr {},
             StdfRec.ptr { TEST_NUM := some 7 }]).lot = some 1 ∧
    (run s0 [StdfRec.mir mirL1, StdfRec.pir {}, StdfRec.prr {},
             StdfRec.ptr { TEST_NUM := some 7 }]).ptr_ftr_buffer =
      [BufItem.ptr { TEST_NUM := some 7 }] ∧
    (run s0 [StdfRec.mir mirL1, StdfRec.pir {}, StdfRec.prr {},
             StdfRec.ptr { TEST_NUM := some 7 },
             StdfRec.prr {}]).store.test_items.map (fun t => (t.die_id, t.test_num)) =
      [(2, 7)] := by
  refine ⟨rfl, rfl, by decide, by decide⟩

/-- C2 (amended): a part-end record processed with an active lot and no open
part key still creates exactly one Die from the part-end record's own fields,
and every result record buffered before it is flushed as a TestItem attached
to that Die — the stale buffer is persisted, not discarded. -/
theorem c2_amended_orphan_prr (s : SinkState) (lot_n : Nat) (fd : PrrFd)
    (hlot : s.lot = some lot_n) (hkey : s.current_die_key = none) :
    (step s (StdfRec.prr fd)).store.dies = s.store.dies ++ [mk_die s lot_n fd] ∧
    (step s (StdfRec.prr fd)).store.test_items =
      s.store.test_items ++
        s.ptr_ftr_buffer.map (mk_test_item s.test_num_to_suite (s.store.dies.length + 1)) := by
  rw [show step s (StdfRec.prr fd) = on_prr s fd from rfl, on_prr_with_lot s lot_n fd hlot]
  exact ⟨rfl, rfl⟩

/-- Witness for the amended C2 at a concrete state with a stale buffered
result and no open part key. -/
theorem c2_amended_orphan_prr_witness :
    (run s0 [StdfRec.mir mirL1, StdfRec.ptr { TEST_NUM := some 7 }]).lot = some 1 ∧
    (run s0 [StdfRec.mir mirL1, StdfRec.ptr { TEST_NUM := some 7 }]).current_die_key = none ∧
    ((step (run s0 [StdfRec.mir mirL1, StdfRec.ptr { TEST_NUM := some 7 }])
        (StdfRec.prr {})).store.dies =
      (run s0 [StdfRec.mir mirL1, StdfRec.ptr { TEST_NUM := some 7 }]).store.dies ++
        [mk_die (run s0 [StdfRec.mir mirL1, StdfRec.ptr { TEST_NUM := some 7 }]) 1 {}] ∧
    (step (run s0 [StdfRec.mir mirL1, StdfRec.ptr { TEST_NUM := some 7 }])
        (StdfRec.prr {})).store.test_items =
      (run s0 [StdfRec.mir mirL1, StdfRec.ptr { TEST_NUM := some 7 }]).store.test_items ++
        (run s0 [StdfRec.mir mirL1, StdfRec.ptr { TEST_NUM := some 7 }]).ptr_ftr_buffer.map
          (mk_test_item
            (run s0 [StdfRec.mir mirL1, StdfRec.ptr { TEST_NUM := some 7 }]).test_num_to_suite
            ((run s0 [StdfRec.mir mirL1,
                StdfRec.ptr { TEST_NUM := some 7 }]).store.dies.length + 1))) :=
  ⟨rfl, rfl,
    c2_amended_orphan_prr (run s0 [StdfRec.mir mirL1, StdfRec.ptr { TEST_NUM := some 7 }])
      1 {} rfl rfl⟩

/-- C9: on every part-end processed with an active lot, sentinel values are
normalized before storage: an x or y coordinate equal to -32768 and a soft
bin equal to 65535 become null on the created Die, and the created Die never
carries those sentinel values literally. -/
theorem c9_sentinel_normalization (s : SinkState) (lot_n : Nat) (fd : PrrFd)
    (hlot : s.lot = some lot_n) :
    (step s (StdfRec.prr fd)).store.dies = s.store.dies ++ [mk_die s lot_n fd] ∧
    (fd.X_COORD = some (-32768) → (mk_die s lot_n fd).x_coord = none) ∧
    (fd.Y_COORD = some (-32768) → (mk_die s lot_n fd).y_coord = none) ∧
    (fd.SOFT_BIN = some 65535 → (mk_die s lot_n fd).soft_bin = none) ∧
    (mk_die s lot_n fd).x_coord ≠ some (-32768) ∧
    (mk_die s lot_n fd).y_coord ≠ some (-32768) ∧
    (mk_die s lot_n fd).soft_bin ≠ some 65535 := by
  refine ⟨?_, ?_, ?_, ?_, ?_, ?_, ?_⟩
  · rw [show step s (StdfRec.prr fd) = on_prr s fd from rfl,
        on_prr_with_lot s lot_n fd hlot, prr_open_dies]
  · intro hx; show (if fd.X_COORD = some (-32768) then none else fd.X_COORD) = none
    rw [if_pos hx]
  · intro hy; show (if fd.Y_COORD = some (-32768) then none else fd.Y_COORD) = none
    rw [if_pos hy]
  · intro hs; show (if fd.SOFT_BIN = some 65535 then none else fd.SOFT_BIN) = none
    rw [if_pos hs]
  · show (if fd.X_COORD = some (-32768) then none else fd.X_COORD) ≠ some (-32768)
    by_cases hx : fd.X_COORD = some (-32768) <;> simp [hx]
  · show (if fd.Y_COORD = some (-32768) then none else fd.Y_COORD) ≠ some (-32768)
    by_cases hy : fd.Y_COORD = some (-32768) <;> simp [hy]
  · show (if fd.SOFT_BIN = some 65535 then none else fd.SOFT_BIN) ≠ some 65535
    by_cases hs : fd.SOFT_BIN = some 65535 <;> simp [hs]

/-- Witness for C9 at a concrete state and a part-end record carrying all
three sentinel values. -/
theorem c9_sentinel_normalization_witness :
    (run s0 [StdfRec.mir mirL1]).lot = some 1 ∧
    ((step (run s0 [StdfRec.mir mirL1])
        (StdfRec.prr { X_COORD := some (-32768), Y_COORD := some (-32768),
                       SOFT_BIN := some 65535 })).store.dies =
      (run s0 [StdfRec.mir mirL1]).store.dies ++
        [mk_die (run s0 [StdfRec.mir mirL1]) 1
          { X_COORD := some (-32768), Y_COORD := some (-32768), SOFT_BIN := some 65535 }]) ∧
    (mk_die (run s0 [StdfRec.mir mirL1]) 1
      { X_COORD := some (-32768), Y_COORD := some (-32768),
        SOFT_BIN := some 65535 }).x_coord = none ∧
    (mk_die (run s0 [StdfRec.mir mirL1]) 1
      { X_COORD := some (-32768), Y_COORD := some (-32768),
        SOFT_BIN := some 65535 }).y_coord = none ∧
    (mk_die (run s0 [StdfRec.mir mirL1]) 1
      { X_COORD := some (-32768), Y_COORD := some (-32768),
        SOFT_BIN := some 65535 }).soft_bin = none := by
  have h := c9_sentinel_normalization (run s0 [StdfRec.mir mirL1]) 1
    { X_COORD := some (-32768), Y_COORD := some (-32768), SOFT_BIN := some 65535 } rfl
  exact ⟨rfl, h.1, h.2.1 rfl, h.2.2.1 rfl, h.2.2.2.1 rfl⟩

theorem get_or_create_company_shape (st : Store) (n : String) :
    ∃ tl, (get_or_create_company st n).1 = { st with companies := st.companies ++ tl } := by
  unfold get_or_create_company
  cases hf : st.companies.find? (fun c => decide (c.name = n)) with
  | some c => exact ⟨[], by rw [List.append_nil]⟩
  | none => exact ⟨_, rfl⟩

theorem get_or_create_product_shape (st : Store) (cid : Nat) (n : String) :
    ∃ tl, (get_or_create_product st cid n).1 = { st with products := st.products ++ tl } := by
  unfold get_or_create_product
  cases hf : st.products.find? (fun p => decide (p.company_id = cid ∧ p.name = n)) with
  | some p => exact ⟨[], by rw [List.append_nil]⟩
  | none => exact ⟨_, rfl⟩

theorem get_or_create_stage_shape (st : Store) (pid : Nat) (n : String) :
    ∃ tl, (get_or_create_stage st pid n).1 = { st with stages := st.stages ++ tl } := by
  unfold get_or_create_stage
  cases hf : st.stages.find? (fun g => decide (g.product_id = pid ∧ g.name = n)) with
  | some g => exact ⟨[], by rw [List.append_nil]⟩
  | none => exact ⟨_, rfl⟩

theorem get_or_create_test_program_shape (st : Store) (gid : Nat) (n rev : String) :
    ∃ tl, (get_or_create_test_program st gid n rev).1 =
      { st with test_programs := st.test_programs ++ tl } := by
  unfold get_or_create_test_program
  cases hf : st.test_programs.find?
      (fun p => decide (p.stage_id = gid ∧ p.name = n ∧ p.revision = rev)) with
  | some p => exact ⟨[], by rw [List.append_nil]⟩
  | none => exact ⟨_, rfl⟩

theorem get_or_create_lot_shape (st : Store) (tp : Nat) (lid : String) (pt : String)
    (su sa : Option Nat) (a1 a2 a3 a4 : String) (sn : Option Nat) (a5 a6 : String) :
    ∃ tl, (get_or_create_lot st tp lid pt su sa a1 a2 a3 a4 sn a5 a6).1 =
      { st with lots := st.lots ++ tl } := by
  unfold get_or_create_lot
  cases hf : st.lots.find? (fun l => decide (l.test_program_id = tp ∧ l.lot_id = lid)) with
  | some l => exact ⟨[], by rw [List.append_nil]⟩
  | none => exact ⟨_, rfl⟩

theorem get_or_create_wafer_shape (st : Store) (ln : Nat) (wid : String)
    (hn sg : Nat) (sa : Option Nat) :
    ∃ tl, (get_or_create_wafer st ln wid hn sg sa).1 =
      { st with wafers := st.wafers ++ tl } := by
  unfold get_or_create_wafer
  cases hf : st.wafers.find?
      (fun w => decide (w.lot_id = ln ∧ w.wafer_id = wid ∧ w.head_num = hn)) with
  | some w => exact ⟨[], by rw [List.append_nil]⟩
  | none => exact ⟨_, rfl⟩

theorem get_or_create_test_suite_shape (st : Store) (tp : Nat) (n : String) :
    ∃ tl, (get_or_create_test_suite st tp n).1 =
      { st with test_suites := st.test_suites ++ tl } := by
  unfold get_or_create_test_suite
  cases hf : st.test_suites.find? (fun u => decide (u.test_program_id = tp ∧ u.name = n)) with
  | some u => exact ⟨[], by rw [List.append_nil]⟩
  | none => exact ⟨_, rfl⟩

theorem get_or_create_test_definition_shape (st : Store) (tp sid tn : Nat)
    (ty nam lbl : String) (ec fc ac : Option Nat) :
    ∃ tl, (get_or_create_test_definition st tp sid tn ty nam lbl ec fc ac).1 =
      { st with test_definitions := st.test_definitions ++ tl } := by
  unfold get_or_create_test_definition
  cases hf : st.test_definitions.find?
      (fun d => decide (d.test_program_id = tp ∧ d.test_num = tn)) with
  | some d => exact ⟨[], by rw [List.append_nil]⟩
  | none => exact ⟨_, rfl⟩

theorem get_or_create_site_equipment_shape (st : Store) (ln hn sg : Nat)
    (b1 b2 b3 b4 b5 b6 b7 b8 b9 b10 b11 b12 : String) :
    ∃ tl, (get_or_create_site_equipment st ln hn sg b1 b2 b3 b4 b5 b6 b7 b8 b9 b10 b11 b12).1 =
      { st with site_equipment := st.site_equipment ++ tl } := by
  unfold get_or_create_site_equipment
  cases hf : st.site_equipment.find?
      (fun e => decide (e.lot_id = ln ∧ e.head_num = hn ∧ e.site_grp = sg)) with
  | some e => exact ⟨[], by rw [List.append_nil]⟩
  | none => exact ⟨_, rfl⟩

/-- C8: a TestItem's suite reference is resolved at flush time — when a
part-end flushes the buffer, every created TestItem's suite reference is the
suite currently mapped to its test number in the suite registry (and null
when the registry has no entry for it); and a suite-definition record never
modifies the TestItem table, so already-created TestItems are untouched. -/
theorem c8_suite_linkage_at_flush_time :
    (∀ (s : SinkState) (lot_n : Nat) (fd : PrrFd), s.lot = some lot_n →
        (step s (StdfRec.prr fd)).store.test_items =
          s.store.test_items ++
            s.ptr_ftr_buffer.map (mk_test_item s.test_num_to_suite (s.store.dies.length + 1))) ∧
    (∀ (m : List (Nat × Nat)) (d : Nat) (item : BufItem),
        (mk_test_item m d item).test_suite_id = lookup_suite m (py_or_nat item.num 0)) ∧
    (∀ (m : List (Nat × Nat)) (d : Nat) (item : BufItem),
        lookup_suite m (py_or_nat item.num 0) = none →
        (mk_test_item m d item).test_suite_id = none) ∧
    (∀ (s : SinkState) (fd : TsrFd),
        (step s (StdfRec.tsr fd)).store.test_items = s.store.test_items) := by
  refine ⟨?_, ?_, ?_, ?_⟩
  · intro s lot_n fd h
    rw [show step s (StdfRec.prr fd) = on_prr s fd from rfl,
        on_prr_with_lot s lot_n fd h, prr_open_test_items]
  · intro m d item; cases item <;> rfl
  · intro m d item h; cases item <;> exact h
  · intro s fd
    show (on_tsr s fd).store.test_items = s.store.test_items
    by_cases hseq : py_strip (py_str fd.SEQ_NAME) = ""
    · rw [on_tsr_empty_seq s fd hseq]
    · cases htp : s.test_program with
      | none => rw [on_tsr_no_program s fd hseq htp]
      | some tp =>
        cases htn : fd.TEST_NUM with
        | none =>
          rw [on_tsr_no_num s fd tp hseq htp htn]
          obtain ⟨tl, he⟩ := get_or_create_test_suite_shape s.store tp
            (py_strip (py_str fd.SEQ_NAME))
          rw [show ({ s with
              store := (get_or_create_test_suite s.store tp
                (py_strip (py_str fd.SEQ_NAME))).1 } : SinkState).store.test_items =
            (get_or_create_test_suite s.store tp (py_strip (py_str fd.SEQ_NAME))).1.test_items
            from rfl, he]
        | some tn =>
          rw [on_tsr_with_num s fd tp tn hseq htp htn]
          obtain ⟨tl, he⟩ := get_or_create_test_suite_shape s.store tp
            (py_strip (py_str fd.SEQ_NAME))
          obtain ⟨tl2, he2⟩ := get_or_create_test_definition_shape
            (get_or_create_test_suite s.store tp (py_strip (py_str fd.SEQ_NAME))).1 tp
            (get_or_create_test_suite s.store tp (py_strip (py_str fd.SEQ_NAME))).2 tn
            (if py_strip (pyOrS (py_str fd.TEST_TYP) " ") = "" then ""
             else py_strip (pyOrS (py_str fd.TEST_TYP) " "))
            ((py_strip (py_str fd.TEST_NAM)).take 512) ((py_strip (py_str fd.TEST_LBL)).take 255)
            fd.EXEC_CNT fd.FAIL_CNT fd.ALRM_CNT
          rw [show (get_or_create_test_definition
              (get_or_create_test_suite s.store tp (py_strip (py_str fd.SEQ_NAME))).1 tp
              (get_or_create_test_suite s.store tp (py_strip (py_str fd.SEQ_NAME))).2 tn
              (if py_strip (pyOrS (py_str fd.TEST_TYP) " ") = "" then ""
               else py_strip (pyOrS (py_str fd.TEST_TYP) " "))
              ((py_strip (py_str fd.TEST_NAM)).take 512)
              ((py_strip (py_str fd.TEST_LBL)).take 255)
              fd.EXEC_CNT fd.FAIL_CNT fd.ALRM_CNT).1.test_items =
              (get_or_create_test_suite s.store tp
                (py_strip (py_str fd.SEQ_NAME))).1.test_items from by rw [he2], he]

/-- Witness for C8: the flush clause and the TSR no-op clause applied at a
concrete state. -/
theorem c8_suite_linkage_at_flush_time_witness :
    (run s0 [StdfRec.mir mirL1]).lot = some 1 ∧
    (step (run s0 [StdfRec.mir mirL1]) (StdfRec.prr {})).store.test_items =
      (run s0 [StdfRec.mir mirL1]).store.test_items ++
        (run s0 [StdfRec.mir mirL1]).ptr_ftr_buffer.map
          (mk_test_item (run s0 [StdfRec.mir mirL1]).test_num_to_suite
            ((run s0 [StdfRec.mir mirL1]).store.dies.length + 1)) ∧
    (step (run s0 [StdfRec.mir mirL1])
        (StdfRec.tsr { SEQ_NAME := some "SUITE", TEST_NUM := some 7 })).store.test_items =
      (run s0 [StdfRec.mir mirL1]).store.test_items :=
  ⟨rfl,
    c8_suite_linkage_at_flush_time.1 (run s0 [StdfRec.mir mirL1]) 1 {} rfl,
    c8_suite_linkage_at_flush_time.2.2.2 (run s0 [StdfRec.mir mirL1])
      { SEQ_NAME := some "SUITE", TEST_NUM := some 7 }⟩

theorem run_buf_items (items : List BufItem) :
    ∀ s : SinkState, run s (items.map BufItem.toRec) =
      { s with ptr_ftr_buffer := s.ptr_ftr_buffer ++ items } := by
  induction items with
  | nil => intro s; simp [run]
  | cons i tl ih =>
    intro s
    cases i with
    | ptr fd =>
      show run (step s (StdfRec.ptr fd)) (tl.map BufItem.toRec) = _
      rw [show step s (StdfRec.ptr fd) =
            { s with ptr_ftr_buffer := s.ptr_ftr_buffer ++ [BufItem.ptr fd] } from rfl, ih]
      simp
    | ftr fd =>
      show run (step s (StdfRec.ftr fd)) (tl.map BufItem.toRec) = _
      rw [show step s (StdfRec.ftr fd) =
            { s with ptr_ftr_buffer := s.ptr_ftr_buffer ++ [BufItem.ftr fd] } from rfl, ih]
      simp

theorem pass_fail_bit (f : Nat) :
    (if f &&& 128 = 0 then (0 : Nat) else 1) = if f.testBit 7 then 1 else 0 := by
  have h := Nat.and_two_pow f 7
  norm_num at h
  rw [h]
  cases hb : f.testBit 7 <;> simp

/-- C7: for part-start, then any list of buffered parametric/functional
results, then part-end under an active lot, exactly one Die is created and
the TestItems appended are exactly the buffered results flushed in arrival
order against the new Die; each flushed TestItem references the die id passed
to the flush, and its pass/fail field is 1 when bit 0x80 of the result's
TEST_FLG is set, 0 when the flag is present with the bit clear, and null
when the flag is absent. -/
theorem c7_buffer_flush_order_and_pass_fail (s : SinkState) (lot_n : Nat)
    (hlot : s.lot = some lot_n) (pfd : PirFd) (items : List BufItem) (qfd : PrrFd) :
    (run s ([StdfRec.pir pfd] ++ items.map BufItem.toRec ++ [StdfRec.prr qfd])).store.dies.length
        = s.store.dies.length + 1 ∧
    (run s ([StdfRec.pir pfd] ++ items.map BufItem.toRec ++ [StdfRec.prr qfd])).store.test_items
        = s.store.test_items ++
            items.map (mk_test_item s.test_num_to_suite (s.store.dies.length + 1)) ∧
    (∀ (m : List (Nat × Nat)) (d : Nat) (item : BufItem),
        (mk_test_item m d item).die_id = d ∧
        (mk_test_item m d item).pass_fail =
          item.flg.map (fun f => if f.testBit 7 then 1 else 0) ∧
        (mk_test_item m d item).test_type =
          (match item with | .ptr _ => "PTR" | .ftr _ => "FTR")) := by
  have base : run s ([StdfRec.pir pfd] ++ items.map BufItem.toRec ++ [StdfRec.prr qfd]) =
      prr_open { step s (StdfRec.pir pfd) with
                 ptr_ftr_buffer := (step s (StdfRec.pir pfd)).ptr_ftr_buffer ++ items }
        lot_n qfd := by
    rw [run_append, run_append]
    rw [show run s [StdfRec.pir pfd] = step s (StdfRec.pir pfd) from rfl]
    rw [run_buf_items items (step s (StdfRec.pir pfd))]
    rw [show run { step s (StdfRec.pir pfd) with
          ptr_ftr_buffer := (step s (StdfRec.pir pfd)).ptr_ftr_buffer ++ items }
        [StdfRec.prr qfd] =
        on_prr { step s (StdfRec.pir pfd) with
          ptr_ftr_buffer := (step s (StdfRec.pir pfd)).ptr_ftr_buffer ++ items } qfd from rfl]
    exact on_prr_with_lot _ lot_n qfd hlot
  refine ⟨?_, ?_, ?_⟩
  · rw [base, prr_open_dies]
    simp [step, on_pir]
  · rw [base, prr_open_test_items]
    simp [step, on_pir]
  · intro m d item
    refine ⟨?_, ?_, ?_⟩
    · cases item <;> rfl
    · cases item with
      | ptr fd =>
        show (match fd.TEST_FLG with
              | none => none
              | some f => some (if f &&& 128 = 0 then 0 else 1)) =
          fd.TEST_FLG.map (fun f => if f.testBit 7 then 1 else 0)
        cases fd.TEST_FLG with
        | none => rfl
        | some f => show some _ = some _; rw [pass_fail_bit]
      | ftr fd =>
        show (match fd.TEST_FLG with
              | none => none
              | some f => some (if f &&& 128 = 0 then 0 else 1)) =
          fd.TEST_FLG.map (fun f => if f.testBit 7 then 1 else 0)
        cases fd.TEST_FLG with
        | none => rfl
        | some f => show some _ = some _; rw [pass_fail_bit]
    · cases item <;> rfl

/-- Witness for C7: part-start, one failing and one passing parametric
result, part-end at a concrete state. -/
theorem c7_buffer_flush_order_and_pass_fail_witness :
    (run s0 [StdfRec.mir mirL1]).lot = some 1 ∧
    (run (run s0 [StdfRec.mir mirL1])
        ([StdfRec.pir {}] ++
          [BufItem.ptr { TEST_NUM := some 1, TEST_FLG := some 128 },
           BufItem.ptr { TEST_NUM := some 2, TEST_FLG := some 0 }].map BufItem.toRec ++
          [StdfRec.prr {}])).store.dies.length =
      (run s0 [StdfRec.mir mirL1]).store.dies.length + 1 ∧
    (run (run s0 [StdfRec.mir mirL1])
        ([StdfRec.pir {}] ++
          [BufItem.ptr { TEST_NUM := some 1, TEST_FLG := some 128 },
           BufItem.ptr { TEST_NUM := some 2, TEST_FLG := some 0 }].map BufItem.toRec ++
          [StdfRec.prr {}])).store.test_items =
      (run s0 [StdfRec.mir mirL1]).store.test_items ++
        [BufItem.ptr { TEST_NUM := some 1, TEST_FLG := some 128 },
         BufItem.ptr { TEST_NUM := some 2, TEST_FLG := some 0 }].map
          (mk_test_item (run s0 [StdfRec.mir mirL1]).test_num_to_suite
            ((run s0 [StdfRec.mir mirL1]).store.dies.length + 1)) := by
  have h := c7_buffer_flush_order_and_pass_fail (run s0 [StdfRec.mir mirL1]) 1 rfl {}
    [BufItem.ptr { TEST_NUM := some 1, TEST_FLG := some 128 },
     BufItem.ptr { TEST_NUM := some 2, TEST_FLG := some 0 }] {}
  exact ⟨rfl, h.1, h.2.1⟩

theorem find?_append_none {α : Type} (l₁ l₂ : List α) (p : α → Bool)
    (h : l₁.find? p = none) : (l₁ ++ l₂).find? p = l₂.find? p := by
  rw [List.find?_append, h]
  rfl

theorem get_or_create_company_stable (st st' : Store) (n : String)
    (h : st'.companies = (get_or_create_company st n).1.companies) :
    get_or_create_company st' n = (st', (get_or_create_company st n).2) := by
  cases hf : st.companies.find? (fun c => decide (c.name = n)) with
  | some c =>
    have h1 : (get_or_create_company st n).1.companies = st.companies := by
      unfold get_or_create_company; rw [hf]
    have h2 : (get_or_create_company st n).2 = c.id := by
      unfold get_or_create_company; rw [hf]
    rw [h2]
    unfold get_or_create_company
    rw [h, h1, hf]
  | none =>
    have h1 : (get_or_create_company st n).1.companies =
        st.companies ++ [{ id := st.companies.length + 1, name := n }] := by
      unfold get_or_create_company; rw [hf]
    have h2 : (get_or_create_company st n).2 = st.companies.length + 1 := by
      unfold get_or_create_company; rw [hf]
    rw [h2]
    unfold get_or_create_company
    rw [h, h1, find?_append_none _ _ _ hf]
    simp [List.find?]

theorem get_or_create_product_stable (st st' : Store) (cid : Nat) (n : String)
    (h : st'.products = (get_or_create_product st cid n).1.products) :
    get_or_create_product st' cid n = (st', (get_or_create_product st cid n).2) := by
  cases hf : st.products.find? (fun p => decide (p.company_id = cid ∧ p.name = n)) with
  | some p =>
    have h1 : (get_or_create_product st cid n).1.products = st.products := by
      unfold get_or_create_product; rw [hf]
    have h2 : (get_or_create_product st cid n).2 = p.id := by
      unfold get_or_create_product; rw [hf]
    rw [h2]
    unfold get_or_create_product
    rw [h, h1, hf]
  | none =>
    have h1 : (get_or_create_product st cid n).1.products =
        st.products ++ [{ id := st.products.length + 1, company_id := cid, name := n }] := by
      unfold get_or_create_product; rw [hf]
    have h2 : (get_or_create_product st cid n).2 = st.products.length + 1 := by
      unfold get_or_create_product; rw [hf]
    rw [h2]
    unfold get_or_create_product
    rw [h, h1, find?_append_none _ _ _ hf]
    simp [List.find?]

theorem get_or_create_stage_stable (st st' : Store) (pid : Nat) (n : String)
    (h : st'.stages = (get_or_create_stage st pid n).1.stages) :
    get_or_create_stage st' pid n = (st', (get_or_create_stage st pid n).2) := by
  cases hf : st.stages.find? (fun g => decide (g.product_id = pid ∧ g.name = n)) with
  | some g =>
    have h1 : (get_or_create_stage st pid n).1.stages = st.stages := by
      unfold get_or_create_stage; rw [hf]
    have h2 : (get_or_create_stage st pid n).2 = g.id := by
      unfold get_or_create_stage; rw [hf]
    rw [h2]
    unfold get_or_create_stage
    rw [h, h1, hf]
  | none =>
    have h1 : (get_or_create_stage st pid n).1.stages =
        st.stages ++ [{ id := st.stages.length + 1, product_id := pid, name := n }] := by
      unfold get_or_create_stage; rw [hf]
    have h2 : (get_or_create_stage st pid n).2 = st.stages.length + 1 := by
      unfold get_or_create_stage; rw [hf]
    rw [h2]
    unfold get_or_create_stage
    rw [h, h1, find?_append_none _ _ _ hf]
    simp [List.find?]

theorem get_or_create_test_program_stable (st st' : Store) (gid : Nat) (n rev : String)
    (h : st'.test_programs = (get_or_create_test_program st gid n rev).1.test_programs) :
    get_or_create_test_program st' gid n rev =
      (st', (get_or_create_test_program st gid n rev).2) := by
  cases hf : st.test_programs.find?
      (fun p => decide (p.stage_id = gid ∧ p.name = n ∧ p.revision = rev)) with
  | some p =>
    have h1 : (get_or_create_test_program st gid n rev).1.test_programs = st.test_programs := by
      unfold get_or_create_test_program; rw [hf]
    have h2 : (get_or_create_test_program st gid n rev).2 = p.id := by
      unfold get_or_create_test_program; rw [hf]
    rw [h2]
    unfold get_or_create_test_program
    rw [h, h1, hf]
  | none =>
    have h1 : (get_or_create_test_program st gid n rev).1.test_programs =
        st.test_programs ++
          [{ id := st.test_programs.length + 1, stage_id := gid, name := n, revision := rev }] := by
      unfold get_or_create_test_program; rw [hf]
    have h2 : (get_or_create_test_program st gid n rev).2 = st.test_programs.length + 1 := by
      unfold get_or_create_test_program; rw [hf]
    rw [h2]
    unfold get_or_create_test_program
    rw [h, h1, find?_append_none _ _ _ hf]
    simp [List.find?]

theorem get_or_create_lot_stable (st st' : Store) (tp : Nat) (lid : String)
    (pt : String) (su sa : Option Nat) (a1 a2 a3 a4 : String) (sn : Option Nat)
    (a5 a6 : String)
    (pt' : String) (su' sa' : Option Nat) (b1 b2 b3 b4 : String) (sn' : Option Nat)
    (b5 b6 : String)
    (h : st'.lots = (get_or_create_lot st tp lid pt su sa a1 a2 a3 a4 sn a5 a6).1.lots) :
    get_or_create_lot st' tp lid pt' su' sa' b1 b2 b3 b4 sn' b5 b6 =
      (st', (get_or_create_lot st tp lid pt su sa a1 a2 a3 a4 sn a5 a6).2) := by
  cases hf : st.lots.find? (fun l => decide (l.test_program_id = tp ∧ l.lot_id = lid)) with
  | some l =>
    have h1 : (get_or_create_lot st tp lid pt su sa a1 a2 a3 a4 sn a5 a6).1.lots = st.lots := by
      unfold get_or_create_lot; rw [hf]
    have h2 : (get_or_create_lot st tp lid pt su sa a1 a2 a3 a4 sn a5 a6).2 = l.id := by
      unfold get_or_create_lot; rw [hf]
    rw [h2]
    unfold get_or_create_lot
    rw [h, h1, hf]
  | none =>
    have h1 : (get_or_create_lot st tp lid pt su sa a1 a2 a3 a4 sn a5 a6).1.lots =
        st.lots ++
          [{ id := st.lots.length + 1, test_program_id := tp, lot_id := lid,
             part_typ := pt, setup_t := su, start_t := sa, finish_t := none,
             tstr_typ := a1, node_nam := a2, facil_id := a3, floor_id := a4,
             stat_num := sn, exec_typ := a5, exec_ver := a6 }] := by
      unfold get_or_create_lot; rw [hf]
    have h2 : (get_or_create_lot st tp lid pt su sa a1 a2 a3 a4 sn a5 a6).2 =
        st.lots.length + 1 := by
      unfold get_or_create_lot; rw [hf]
    rw [h2]
    unfold get_or_create_lot
    rw [h, h1, find?_append_none _ _ _ hf]
    simp [List.find?]

theorem get_or_create_wafer_stable (st st' : Store) (ln : Nat) (wid : String)
    (hn : Nat) (sg : Nat) (sa : Option Nat) (sg' : Nat) (sa' : Option Nat)
    (h : st'.wafers = (get_or_create_wafer st ln wid hn sg sa).1.wafers) :
    get_or_create_wafer st' ln wid hn sg' sa' =
      (st', (get_or_create_wafer st ln wid hn sg sa).2) := by
  cases hf : st.wafers.find?
      (fun w => decide (w.lot_id = ln ∧ w.wafer_id = wid ∧ w.head_num = hn)) with
  | some w =>
    have h1 : (get_or_create_wafer st ln wid hn sg sa).1.wafers = st.wafers := by
      unfold get_or_create_wafer; rw [hf]
    have h2 : (get_or_create_wafer st ln wid hn sg sa).2 = w.id := by
      unfold get_or_create_wafer; rw [hf]
    rw [h2]
    unfold get_or_create_wafer
    rw [h, h1, hf]
  | none =>
    have h1 : (get_or_create_wafer st ln wid hn sg sa).1.wafers =
        st.wafers ++
          [{ id := st.wafers.length + 1, lot_id := ln, wafer_id := wid,
             head_num := hn, site_grp := sg, start_t := sa,
             finish_t := none, part_cnt := 0, good_cnt := 0 }] := by
      unfold get_or_create_wafer; rw [hf]
    have h2 : (get_or_create_wafer st ln wid hn sg sa).2 = st.wafers.length + 1 := by
      unfold get_or_create_wafer; rw [hf]
    rw [h2]
    unfold get_or_create_wafer
    rw [h, h1, find?_append_none _ _ _ hf]
    simp [List.find?]

theorem get_or_create_test_suite_stable (st st' : Store) (tp : Nat) (n : String)
    (h : st'.test_suites = (get_or_create_test_suite st tp n).1.test_suites) :
    get_or_create_test_suite st' tp n = (st', (get_or_create_test_suite st tp n).2) := by
  cases hf : st.test_suites.find? (fun u => decide (u.test_program_id = tp ∧ u.name = n)) with
  | some u =>
    have h1 : (get_or_create_test_suite st tp n).1.test_suites = st.test_suites := by
      unfold get_or_create_test_suite; rw [hf]
    have h2 : (get_or_create_test_suite st tp n).2 = u.id := by
      unfold get_or_create_test_suite; rw [hf]
    rw [h2]
    unfold get_or_create_test_suite
    rw [h, h1, hf]
  | none =>
    have h1 : (get_or_create_test_suite st tp n).1.test_suites =
        st.test_suites ++
          [{ id := st.test_suites.length + 1, test_program_id := tp, name := n }] := by
      unfold get_or_create_test_suite; rw [hf]
    have h2 : (get_or_create_test_suite st tp n).2 = st.test_suites.length + 1 := by
      unfold get_or_create_test_suite; rw [hf]
    rw [h2]
    unfold get_or_create_test_suite
    rw [h, h1, find?_append_none _ _ _ hf]
    simp [List.find?]

theorem get_or_create_test_definition_stable (st st' : Store) (tp sid tn : Nat)
    (ty nam lbl : String) (ec fc ac : Option Nat)
    (sid' : Nat) (ty' nam' lbl' : String) (ec' fc' ac' : Option Nat)
    (h : st'.test_definitions =
      (get_or_create_test_definition st tp sid tn ty nam lbl ec fc ac).1.test_definitions) :
    get_or_create_test_definition st' tp sid' tn ty' nam' lbl' ec' fc' ac' =
      (st', (get_or_create_test_definition st tp sid tn ty nam lbl ec fc ac).2) := by
  cases hf : st.test_definitions.find?
      (fun d => decide (d.test_program_id = tp ∧ d.test_num = tn)) with
  | some d =>
    have h1 : (get_or_create_test_definition st tp sid tn ty nam lbl ec fc ac).1.test_definitions
        = st.test_definitions := by
      unfold get_or_create_test_definition; rw [hf]
    have h2 : (get_or_create_test_definition st tp sid tn ty nam lbl ec fc ac).2 = d.id := by
      unfold get_or_create_test_definition; rw [hf]
    rw [h2]
    unfold get_or_create_test_definition
    rw [h, h1, hf]
  | none =>
    have h1 : (get_or_create_test_definition st tp sid tn ty nam lbl ec fc ac).1.test_definitions
        = st.test_definitions ++
          [{ id := st.test_definitions.length + 1, test_suite_id := sid,
             test_program_id := tp, test_num := tn, test_type := ty,
             test_nam := nam, test_lbl := lbl,
             exec_cnt := ec, fail_cnt := fc, alrm_cnt := ac }] := by
      unfold get_or_create_test_definition; rw [hf]
    have h2 : (get_or_create_test_definition st tp sid tn ty nam lbl ec fc ac).2 =
        st.test_definitions.length + 1 := by
      unfold get_or_create_test_definition; rw [hf]
    rw [h2]
    unfold get_or_create_test_definition
    rw [h, h1, find?_append_none _ _ _ hf]
    simp [List.find?]

theorem get_or_create_site_equipment_stable (st st' : Store) (ln hn sg : Nat)
    (b1 b2 b3 b4 b5 b6 b7 b8 b9 b10 b11 b12 : String)
    (c1 c2 c3 c4 c5 c6 c7 c8 c9 c10 c11 c12 : String)
    (h : st'.site_equipment =
      (get_or_create_site_equipment st ln hn sg
        b1 b2 b3 b4 b5 b6 b7 b8 b9 b10 b11 b12).1.site_equipment) :
    get_or_create_site_equipment st' ln hn sg c1 c2 c3 c4 c5 c6 c7 c8 c9 c10 c11 c12 =
      (st', (get_or_create_site_equipment st ln hn sg
        b1 b2 b3 b4 b5 b6 b7 b8 b9 b10 b11 b12).2) := by
  cases hf : st.site_equipment.find?
      (fun e => decide (e.lot_id = ln ∧ e.head_num = hn ∧ e.site_grp = sg)) with
  | some e =>
    have h1 : (get_or_create_site_equipment st ln hn sg
        b1 b2 b3 b4 b5 b6 b7 b8 b9 b10 b11 b12).1.site_equipment = st.site_equipment := by
      unfold get_or_create_site_equipment; rw [hf]
    have h2 : (get_or_create_site_equipment st ln hn sg
        b1 b2 b3 b4 b5 b6 b7 b8 b9 b10 b11 b12).2 = e.id := by
      unfold get_or_create_site_equipment; rw [hf]
    rw [h2]
    unfold get_or_create_site_equipment
    rw [h, h1, hf]
  | none =>
    have h1 : (get_or_create_site_equipment st ln hn sg
        b1 b2 b3 b4 b5 b6 b7 b8 b9 b10 b11 b12).1.site_equipment =
        st.site_equipment ++
          [{ id := st.site_equipment.length + 1, lot_id := ln, head_num := hn, site_grp := sg,
             hand_typ := b1, hand_id := b2, card_typ := b3, card_id := b4,
             load_typ := b5, load_id := b6, dib_typ := b7, dib_id := b8,
             cabl_typ := b9, cabl_id := b10, cont_typ := b11, cont_id := b12 }] := by
      unfold get_or_create_site_equipment; rw [hf]
    have h2 : (get_or_create_site_equipment st ln hn sg
        b1 b2 b3 b4 b5 b6 b7 b8 b9 b10 b11 b12).2 = st.site_equipment.length + 1 := by
      unfold get_or_create_site_equipment; rw [hf]
    rw [h2]
    unfold get_or_create_site_equipment
    rw [h, h1, find?_append_none _ _ _ hf]
    simp [List.find?]

theorem get_or_create_product_companies (st : Store) (cid : Nat) (n : String) :
    (get_or_create_product st cid n).1.companies = st.companies := by
  obtain ⟨tl, h⟩ := get_or_create_product_shape st cid n
  rw [h]

theorem get_or_create_stage_companies (st : Store) (pid : Nat) (n : String) :
    (get_or_create_stage st pid n).1.companies = st.companies := by
  obtain ⟨tl, h⟩ := get_or_create_stage_shape st pid n
  rw [h]

theorem get_or_create_test_program_companies (st : Store) (gid : Nat) (n rev : String) :
    (get_or_create_test_program st gid n rev).1.companies = st.companies := by
  obtain ⟨tl, h⟩ := get_or_create_test_program_shape st gid n rev
  rw [h]

theorem get_or_create_lot_companies (st : Store) (tp : Nat) (lid : String) (pt : String)
    (su sa : Option Nat) (a1 a2 a3 a4 : String) (sn : Option Nat) (a5 a6 : String) :
    (get_or_create_lot st tp lid pt su sa a1 a2 a3 a4 sn a5 a6).1.companies = st.companies := by
  obtain ⟨tl, h⟩ := get_or_create_lot_shape st tp lid pt su sa a1 a2 a3 a4 sn a5 a6
  rw [h]

theorem get_or_create_stage_products (st : Store) (pid : Nat) (n : String) :
    (get_or_create_stage st pid n).1.products = st.products := by
  obtain ⟨tl, h⟩ := get_or_create_stage_shape st pid n
  rw [h]

theorem get_or_create_test_program_products (st : Store) (gid : Nat) (n rev : String) :
    (get_or_create_test_program st gid n rev).1.products = st.products := by
  obtain ⟨tl, h⟩ := get_or_create_test_program_shape st gid n rev
  rw [h]

theorem get_or_create_lot_products (st : Store) (tp : Nat) (lid : String) (pt : String)
    (su sa : Option Nat) (a1 a2 a3 a4 : String) (sn : Option Nat) (a5 a6 : String) :
    (get_or_create_lot st tp lid pt su sa a1 a2 a3 a4 sn a5 a6).1.products = st.products := by
  obtain ⟨tl, h⟩ := get_or_create_lot_shape st tp lid pt su sa a1 a2 a3 a4 sn a5 a6
  rw [h]

theorem get_or_create_test_program_stages (st : Store) (gid : Nat) (n rev : String) :
    (get_or_create_test_program st gid n rev).1.stages = st.stages := by
  obtain ⟨tl, h⟩ := get_or_create_test_program_shape st gid n rev
  rw [h]

theorem get_or_create_lot_stages (st : Store) (tp : Nat) (lid : String) (pt : String)
    (su sa : Option Nat) (a1 a2 a3 a4 : String) (sn : Option Nat) (a5 a6 : String) :
    (get_or_create_lot st tp lid pt su sa a1 a2 a3 a4 sn a5 a6).1.stages = st.stages := by
  obtain ⟨tl, h⟩ := get_or_create_lot_shape st tp lid pt su sa a1 a2 a3 a4 sn a5 a6
  rw [h]

theorem get_or_create_lot_test_programs (st : Store) (tp : Nat) (lid : String) (pt : String)
    (su sa : Option Nat) (a1 a2 a3 a4 : String) (sn : Option Nat) (a5 a6 : String) :
    (get_or_create_lot st tp lid pt su sa a1 a2 a3 a4 sn a5 a6).1.test_programs =
      st.test_programs := by
  obtain ⟨tl, h⟩ := get_or_create_lot_shape st tp lid pt su sa a1 a2 a3 a4 sn a5 a6
  rw [h]

theorem get_or_create_test_definition_test_suites (st : Store) (tp sid tn : Nat)
    (ty nam lbl : String) (ec fc ac : Option Nat) :
    (get_or_create_test_definition st tp sid tn ty nam lbl ec fc ac).1.test_suites =
      st.test_suites := by
  obtain ⟨tl, h⟩ := get_or_create_test_definition_shape st tp sid tn ty nam lbl ec fc ac
  rw [h]

theorem on_wir_with_lot (s : SinkState) (fd : WirFd) (lot_n : Nat) (h : s.lot = some lot_n) :
    on_wir s fd =
      { s with
        store := (get_or_create_wafer s.store lot_n
          (pyOrS (py_strip (py_str fd.WAFER_ID)) "UNKNOWN_WAFER")
          (py_or_nat fd.HEAD_NUM 1) (fd.SITE_GRP.getD 255)
          (stdf_time_to_datetime fd.START_T)).1,
        wafer := some (get_or_create_wafer s.store lot_n
          (pyOrS (py_strip (py_str fd.WAFER_ID)) "UNKNOWN_WAFER")
          (py_or_nat fd.HEAD_NUM 1) (fd.SITE_GRP.getD 255)
          (stdf_time_to_datetime fd.START_T)).2,
        wafer_id_current := some (pyOrS (py_strip (py_str fd.WAFER_ID)) "UNKNOWN_WAFER"),
        current_die := none, current_die_key := none, ptr_ftr_buffer := [] } := by
  simp only [on_wir, h]

theorem on_sdr_with_lot (s : SinkState) (fd : SdrFd) (lot_n : Nat) (h : s.lot = some lot_n) :
    on_sdr s fd =
      { s with
        store := (get_or_create_site_equipment s.store lot_n
          (py_or_nat fd.HEAD_NUM 1) (fd.SITE_GRP.getD 255)
          ((py_strip (py_str fd.HAND_TYP)).take 128) ((py_strip (py_str fd.HAND_ID)).take 128)
          ((py_strip (py_str fd.CARD_TYP)).take 128) ((py_strip (py_str fd.CARD_ID)).take 128)
          ((py_strip (py_str fd.LOAD_TYP)).take 128) ((py_strip (py_str fd.LOAD_ID)).take 128)
          ((py_strip (py_str fd.DIB_TYP)).take 128) ((py_strip (py_str fd.DIB_ID)).take 128)
          ((py_strip (py_str fd.CABL_TYP)).take 128) ((py_strip (py_str fd.CABL_ID)).take 128)
          ((py_strip (py_str fd.CONT_TYP)).take 128)
          ((py_strip (py_str fd.CONT_ID)).take 128)).1 } := by
  simp only [on_sdr, h]

theorem on_wir_idem (s : SinkState) (fd fd' : WirFd)
    (k1 : fd.WAFER_ID = fd'.WAFER_ID) (k2 : fd.HEAD_NUM = fd'.HEAD_NUM) :
    (on_wir (on_wir s fd) fd').store = (on_wir s fd).store := by
  cases hlot : s.lot with
  | none => rw [on_wir_no_lot s fd hlot, on_wir_no_lot s fd' hlot]
  | some lot_n =>
    have hBlot : (on_wir s fd).lot = some lot_n := by
      rw [on_wir_with_lot s fd lot_n hlot]; exact hlot
    have hBw : (on_wir s fd).store.wafers =
        (get_or_create_wafer s.store lot_n
          (pyOrS (py_strip (py_str fd.WAFER_ID)) "UNKNOWN_WAFER")
          (py_or_nat fd.HEAD_NUM 1) (fd.SITE_GRP.getD 255)
          (stdf_time_to_datetime fd.START_T)).1.wafers := by
      rw [on_wir_with_lot s fd lot_n hlot]
    have e := get_or_create_wafer_stable s.store (on_wir s fd).store lot_n
      (pyOrS (py_strip (py_str fd.WAFER_ID)) "UNKNOWN_WAFER")
      (py_or_nat fd.HEAD_NUM 1) (fd.SITE_GRP.getD 255) (stdf_time_to_datetime fd.START_T)
      (fd'.SITE_GRP.getD 255) (stdf_time_to_datetime fd'.START_T) hBw
    rw [on_wir_with_lot (on_wir s fd) fd' lot_n hBlot]
    show (get_or_create_wafer (on_wir s fd).store lot_n
      (pyOrS (py_strip (py_str fd'.WAFER_ID)) "UNKNOWN_WAFER")
      (py_or_nat fd'.HEAD_NUM 1) (fd'.SITE_GRP.getD 255)
      (stdf_time_to_datetime fd'.START_T)).1 = (on_wir s fd).store
    rw [← k1, ← k2, e]

theorem on_sdr_idem (s : SinkState) (fd fd' : SdrFd)
    (k1 : fd.HEAD_NUM = fd'.HEAD_NUM) (k2 : fd.SITE_GRP = fd'.SITE_GRP) :
    (on_sdr (on_sdr s fd) fd').store = (on_sdr s fd).store := by
  cases hlot : s.lot with
  | none => rw [on_sdr_no_lot s fd hlot, on_sdr_no_lot s fd' hlot]
  | some lot_n =>
    have hBlot : (on_sdr s fd).lot = some lot_n := by
      rw [on_sdr_with_lot s fd lot_n hlot]; exact hlot
    have hBse : (on_sdr s fd).store.site_equipment =
        (get_or_create_site_equipment s.store lot_n
          (py_or_nat fd.HEAD_NUM 1) (fd.SITE_GRP.getD 255)
          ((py_strip (py_str fd.HAND_TYP)).take 128) ((py_strip (py_str fd.HAND_ID)).take 128)
          ((py_strip (py_str fd.CARD_TYP)).take 128) ((py_strip (py_str fd.CARD_ID)).take 128)
          ((py_strip (py_str fd.LOAD_TYP)).take 128) ((py_strip (py_str fd.LOAD_ID)).take 128)
          ((py_strip (py_str fd.DIB_TYP)).take 128) ((py_strip (py_str fd.DIB_ID)).take 128)
          ((py_strip (py_str fd.CABL_TYP)).take 128) ((py_strip (py_str fd.CABL_ID)).take 128)
          ((py_strip (py_str fd.CONT_TYP)).take 128)
          ((py_strip (py_str fd.CONT_ID)).take 128)).1.site_equipment := by
      rw [on_sdr_with_lot s fd lot_n hlot]
    have e := get_or_create_site_equipment_stable s.store (on_sdr s fd).store lot_n
      (py_or_nat fd.HEAD_NUM 1) (fd.SITE_GRP.getD 255)
      ((py_strip (py_str fd.HAND_TYP)).take 128) ((py_strip (py_str fd.HAND_ID)).take 128)
      ((py_strip (py_str fd.CARD_TYP)).take 128) ((py_strip (py_str fd.CARD_ID)).take 128)
      ((py_strip (py_str fd.LOAD_TYP)).take 128) ((py_strip (py_str fd.LOAD_ID)).take 128)
      ((py_strip (py_str fd.DIB_TYP)).take 128) ((py_strip (py_str fd.DIB_ID)).take 128)
      ((py_strip (py_str fd.CABL_TYP)).take 128) ((py_strip (py_str fd.CABL_ID)).take 128)
      ((py_strip (py_str fd.CONT_TYP)).take 128) ((py_strip (py_str fd.CONT_ID)).take 128)
      ((py_strip (py_str fd'.HAND_TYP)).take 128) ((py_strip (py_str fd'.HAND_ID)).take 128)
      ((py_strip (py_str fd'.CARD_TYP)).take 128) ((py_strip (py_str fd'.CARD_ID)).take 128)
      ((py_strip (py_str fd'.LOAD_TYP)).take 128) ((py_strip (py_str fd'.LOAD_ID)).take 128)
      ((py_strip (py_str fd'.DIB_TYP)).take 128) ((py_strip (py_str fd'.DIB_ID)).take 128)
      ((py_strip (py_str fd'.CABL_TYP)).take 128) ((py_strip (py_str fd'.CABL_ID)).take 128)
      ((py_strip (py_str fd'.CONT_TYP)).take 128) ((py_strip (py_str fd'.CONT_ID)).take 128)
      hBse
    rw [on_sdr_with_lot (on_sdr s fd) fd' lot_n hBlot]
    show (get_or_create_site_equipment (on_sdr s fd).store lot_n
      (py_or_nat fd'.HEAD_NUM 1) (fd'.SITE_GRP.getD 255)
      ((py_strip (py_str fd'.HAND_TYP)).take 128) ((py_strip (py_str fd'.HAND_ID)).take 128)
      ((py_strip (py_str fd'.CARD_TYP)).take 128) ((py_strip (py_str fd'.CARD_ID)).take 128)
      ((py_strip (py_str fd'.LOAD_TYP)).take 128) ((py_strip (py_str fd'.LOAD_ID)).take 128)
      ((py_strip (py_str fd'.DIB_TYP)).take 128) ((py_strip (py_str fd'.DIB_ID)).take 128)
      ((py_strip (py_str fd'.CABL_TYP)).take 128) ((py_strip (py_str fd'.CABL_ID)).take 128)
      ((py_strip (py_str fd'.CONT_TYP)).take 128)
      ((py_strip (py_str fd'.CONT_ID)).take 128)).1 = (on_sdr s fd).store
    rw [← k1, ← k2, e]

theorem on_tsr_idem (s : SinkState) (fd fd' : TsrFd)
    (k1 : fd.SEQ_NAME = fd'.SEQ_NAME) (k2 : fd.TEST_NUM = fd'.TEST_NUM) :
    (on_tsr (on_tsr s fd) fd').store = (on_tsr s fd).store := by
  by_cases hseq : py_strip (py_str fd.SEQ_NAME) = ""
  · have hseq' : py_strip (py_str fd'.SEQ_NAME) = "" := by rw [← k1]; exact hseq
    rw [on_tsr_empty_seq s fd hseq, on_tsr_empty_seq s fd' hseq']
  · have hseq' : ¬ py_strip (py_str fd'.SEQ_NAME) = "" := by rw [← k1]; exact hseq
    cases htp : s.test_program with
    | none =>
      rw [on_tsr_no_program s fd hseq htp, on_tsr_no_program s fd' hseq' htp]
    | some tp =>
      cases htn : fd.TEST_NUM with
      | none =>
        have htn' : fd'.TEST_NUM = none := by rw [← k2]; exact htn
        have hBtp : (on_tsr s fd).test_program = some tp := by
          rw [on_tsr_no_num s fd tp hseq htp htn]; exact htp
        have hBs : (on_tsr s fd).store.test_suites =
            (get_or_create_test_suite s.store tp
              (py_strip (py_str fd.SEQ_NAME))).1.test_suites := by
          rw [on_tsr_no_num s fd tp hseq htp htn]
        have e := get_or_create_test_suite_stable s.store (on_tsr s fd).store tp
          (py_strip (py_str fd.SEQ_NAME)) hBs
        rw [on_tsr_no_num (on_tsr s fd) fd' tp hseq' hBtp htn']
        show (get_or_create_test_suite (on_tsr s fd).store tp
          (py_strip (py_str fd'.SEQ_NAME))).1 = (on_tsr s fd).store
        rw [← k1, e]
      | some tn =>
        have htn' : fd'.TEST_NUM = some tn := by rw [← k2]; exact htn
        have hBtp : (on_tsr s fd).test_program = some tp := by
          rw [on_tsr_with_num s fd tp tn hseq htp htn]; exact htp
        have hBs : (on_tsr s fd).store.test_suites =
            (get_or_create_test_suite s.store tp
              (py_strip (py_str fd.SEQ_NAME))).1.test_suites := by
          rw [on_tsr_with_num s fd tp tn hseq htp htn]
          show (get_or_create_test_definition _ _ _ _ _ _ _ _ _ _).1.test_suites = _
          rw [get_or_create_test_definition_test_suites]
        have e1 := get_or_create_test_suite_stable s.store (on_tsr s fd).store tp
          (py_strip (py_str fd.SEQ_NAME)) hBs
        have hBtd : (on_tsr s fd).store.test_definitions =
            (get_or_create_test_definition
              (get_or_create_test_suite s.store tp (py_strip (py_str fd.SEQ_NAME))).1 tp
              (get_or_create_test_suite s.store tp (py_strip (py_str fd.SEQ_NAME))).2 tn
              (if py_strip (pyOrS (py_str fd.TEST_TYP) " ") = "" then ""
               else py_strip (pyOrS (py_str fd.TEST_TYP) " "))
              ((py_strip (py_str fd.TEST_NAM)).take 512)
              ((py_strip (py_str fd.TEST_LBL)).take 255)
              fd.EXEC_CNT fd.FAIL_CNT fd.ALRM_CNT).1.test_definitions := by
          rw [on_tsr_with_num s fd tp tn hseq htp htn]
        have e2 := get_or_create_test_definition_stable
          (get_or_create_test_suite s.store tp (py_strip (py_str fd.SEQ_NAME))).1
          (on_tsr s fd).store tp
          (get_or_create_test_suite s.store tp (py_strip (py_str fd.SEQ_NAME))).2 tn
          (if py_strip (pyOrS (py_str fd.TEST_TYP) " ") = "" then ""
           else py_strip (pyOrS (py_str fd.TEST_TYP) " "))
          ((py_strip (py_str fd.TEST_NAM)).take 512)
          ((py_strip (py_str fd.TEST_LBL)).take 255)
          fd.EXEC_CNT fd.FAIL_CNT fd.ALRM_CNT
          (get_or_create_test_suite s.store tp (py_strip (py_str fd.SEQ_NAME))).2
          (if py_strip (pyOrS (py_str fd'.TEST_TYP) " ") = "" then ""
           else py_strip (pyOrS (py_str fd'.TEST_TYP) " "))
          ((py_strip (py_str fd'.TEST_NAM)).take 512)
          ((py_strip (py_str fd'.TEST_LBL)).take 255)
          fd'.EXEC_CNT fd'.FAIL_CNT fd'.ALRM_CNT hBtd
        rw [on_tsr_with_num (on_tsr s fd) fd' tp tn hseq' hBtp htn']
        show (get_or_create_test_definition
          (get_or_create_test_suite (on_tsr s fd).store tp (py_strip (py_str fd'.SEQ_NAME))).1
          tp
          (get_or_create_test_suite (on_tsr s fd).store tp (py_strip (py_str fd'.SEQ_NAME))).2
          tn
          (if py_strip (pyOrS (py_str fd'.TEST_TYP) " ") = "" then ""
           else py_strip (pyOrS (py_str fd'.TEST_TYP) " "))
          ((py_strip (py_str fd'.TEST_NAM)).take 512)
          ((py_strip (py_str fd'.TEST_LBL)).take 255)
          fd'.EXEC_CNT fd'.FAIL_CNT fd'.ALRM_CNT).1 = (on_tsr s fd).store
        rw [← k1, e1]
        show (get_or_create_test_definition (on_tsr s fd).store tp
          (get_or_create_test_suite s.store tp (py_strip (py_str fd.SEQ_NAME))).2 tn
          (if py_strip (pyOrS (py_str fd'.TEST_TYP) " ") = "" then ""
           else py_strip (pyOrS (py_str fd'.TEST_TYP) " "))
          ((py_strip (py_str fd'.TEST_NAM)).take 512)
          ((py_strip (py_str fd'.TEST_LBL)).take 255)
          fd'.EXEC_CNT fd'.FAIL_CNT fd'.ALRM_CNT).1 = (on_tsr s fd).store
        rw [e2]

theorem on_mir_idem (s : SinkState) (fd fd' : MirFd)
    (k1 : fd.PART_TYP = fd'.PART_TYP) (k2 : fd.MODE_COD = fd'.MODE_COD)
    (k3 : fd.JOB_NAM = fd'.JOB_NAM) (k4 : fd.JOB_REV = fd'.JOB_REV)
    (k5 : fd.LOT_ID = fd'.LOT_ID) :
    (on_mir (on_mir s fd) fd').store = (on_mir s fd).store := by
  have hAcn : (on_mir s fd).company_name = s.company_name := rfl
  have hApn : (on_mir s fd).product_name = s.product_name := rfl
  have hAsn : (on_mir s fd).stage_name = s.stage_name := rfl
  have hAc : (on_mir s fd).store.companies =
      (get_or_create_company s.store s.company_name).1.companies := by
    simp only [on_mir, get_or_create_hierarchy]
    rw [get_or_create_lot_companies, get_or_create_test_program_companies,
        get_or_create_stage_companies, get_or_create_product_companies]
  have hAp : (on_mir s fd).store.products =
      (get_or_create_product (get_or_create_company s.store s.company_name).1
        (get_or_create_company s.store s.company_name).2
        (pyOrS (py_strip (pyOrS (py_str fd.PART_TYP) s.product_name))
          "DefaultProduct")).1.products := by
    simp only [on_mir, get_or_create_hierarchy]
    rw [get_or_create_lot_products, get_or_create_test_program_products,
        get_or_create_stage_products]
  have hAg : (on_mir s fd).store.stages =
      (get_or_create_stage
        (get_or_create_product (get_or_create_company s.store s.company_name).1
          (get_or_create_company s.store s.company_name).2
          (pyOrS (py_strip (pyOrS (py_str fd.PART_TYP) s.product_name)) "DefaultProduct")).1
        (get_or_create_product (get_or_create_company s.store s.company_name).1
          (get_or_create_company s.store s.company_name).2
          (pyOrS (py_strip (pyOrS (py_str fd.PART_TYP) s.product_name)) "DefaultProduct")).2
        (pyOrS (py_strip (pyOrS (py_str fd.MODE_COD) s.stage_name))
          "DefaultStage")).1.stages := by
    simp only [on_mir, get_or_create_hierarchy]
    rw [get_or_create_lot_stages, get_or_create_test_program_stages]
  have hAt : (on_mir s fd).store.test_programs =
      (get_or_create_test_program
        (get_or_create_stage
          (get_or_create_product (get_or_create_company s.store s.company_name).1
            (get_or_create_company s.store s.company_name).2
            (pyOrS (py_strip (pyOrS (py_str fd.PART_TYP) s.product_name)) "DefaultProduct")).1
          (get_or_create_product (get_or_create_company s.store s.company_name).1
            (get_or_create_company s.store s.company_name).2
            (pyOrS (py_strip (pyOrS (py_str fd.PART_TYP) s.product_name)) "DefaultProduct")).2
          (pyOrS (py_strip (pyOrS (py_str fd.MODE_COD) s.stage_name)) "DefaultStage")).1
        (get_or_create_stage
          (get_or_create_product (get_or_create_company s.store s.company_name).1
            (get_or_create_company s.store s.company_name).2
            (pyOrS (py_strip (pyOrS (py_str fd.PART_TYP) s.product_name)) "DefaultProduct")).1
          (get_or_create_product (get_or_create_company s.store s.company_name).1
            (get_or_create_company s.store s.company_name).2
            (pyOrS (py_strip (pyOrS (py_str fd.PART_TYP) s.product_name)) "DefaultProduct")).2
          (pyOrS (py_strip (pyOrS (py_str fd.MODE_COD) s.stage_name)) "DefaultStage")).2
        (pyOrS (py_strip (py_str fd.JOB_NAM)) "DefaultProgram")
        (py_strip (py_str fd.JOB_REV))).1.test_programs := by
    simp only [on_mir, get_or_create_hierarchy]
    rw [get_or_create_lot_test_programs]
  have e1 := get_or_create_company_stable s.store (on_mir s fd).store s.company_name hAc
  have e2 := get_or_create_product_stable (get_or_create_company s.store s.company_name).1
    (on_mir s fd).store (get_or_create_company s.store s.company_name).2
    (pyOrS (py_strip (pyOrS (py_str fd.PART_TYP) s.product_name)) "DefaultProduct") hAp
  have e3 := get_or_create_stage_stable
    (get_or_create_product (get_or_create_company s.store s.company_name).1
      (get_or_create_company s.store s.company_name).2
      (pyOrS (py_strip (pyOrS (py_str fd.PART_TYP) s.product_name)) "DefaultProduct")).1
    (on_mir s fd).store
    (get_or_create_product (get_or_create_company s.store s.company_name).1
      (get_or_create_company s.store s.company_name).2
      (pyOrS (py_strip (pyOrS (py_str fd.PART_TYP) s.product_name)) "DefaultProduct")).2
    (pyOrS (py_strip (pyOrS (py_str fd.MODE_COD) s.stage_name)) "DefaultStage") hAg
  have e4 := get_or_create_test_program_stable
    (get_or_create_stage
      (get_or_create_product (get_or_create_company s.store s.company_name).1
        (get_or_create_company s.store s.company_name).2
        (pyOrS (py_strip (pyOrS (py_str fd.PART_TYP) s.product_name)) "DefaultProduct")).1
      (get_or_create_product (get_or_create_company s.store s.company_name).1
        (get_or_create_company s.store s.company_name).2
        (pyOrS (py_strip (pyOrS (py_str fd.PART_TYP) s.product_name)) "DefaultProduct")).2
      (pyOrS (py_strip (pyOrS (py_str fd.MODE_COD) s.stage_name)) "DefaultStage")).1
    (on_mir s fd).store
    (get_or_create_stage
      (get_or_create_product (get_or_create_company s.store s.company_name).1
        (get_or_create_company s.store s.company_name).2
        (pyOrS (py_strip (pyOrS (py_str fd.PART_TYP) s.product_name)) "DefaultProduct")).1
      (get_or_create_product (get_or_create_company s.store s.company_name).1
        (get_or_create_company s.store s.company_name).2
        (pyOrS (py_strip (pyOrS (py_str fd.PART_TYP) s.product_name)) "DefaultProduct")).2
      (pyOrS (py_strip (pyOrS (py_str fd.MODE_COD) s.stage_name)) "DefaultStage")).2
    (pyOrS (py_strip (py_str fd.JOB_NAM)) "DefaultProgram")
    (py_strip (py_str fd.JOB_REV)) hAt
  have hAl : (on_mir s fd).store.lots =
      (get_or_create_lot
        (get_or_create_test_program
          (get_or_create_stage
            (get_or_create_product (get_or_create_company s.store s.company_name).1
              (get_or_create_company s.store s.company_name).2
              (pyOrS (py_strip (pyOrS (py_str fd.PART_TYP) s.product_name)) "DefaultProduct")).1
            (get_or_create_product (get_or_create_company s.store s.company_name).1
              (get_or_create_company s.store s.company_name).2
              (pyOrS (py_strip (pyOrS (py_str fd.PART_TYP) s.product_name)) "DefaultProduct")).2
            (pyOrS (py_strip (pyOrS (py_str fd.MODE_COD) s.stage_name)) "DefaultStage")).1
          (get_or_create_stage
            (get_or_create_product (get_or_create_company s.store s.company_name).1
              (get_or_create_company s.store s.company_name).2
              (pyOrS (py_strip (pyOrS (py_str fd.PART_TYP) s.product_name)) "DefaultProduct")).1
            (get_or_create_product (get_or_create_company s.store s.company_name).1
              (get_or_create_company s.store s.company_name).2
              (pyOrS (py_strip (pyOrS (py_str fd.PART_TYP) s.product_name)) "DefaultProduct")).2
            (pyOrS (py_strip (pyOrS (py_str fd.MODE_COD) s.stage_name)) "DefaultStage")).2
          (pyOrS (py_strip (py_str fd.JOB_NAM)) "DefaultProgram")
          (py_strip (py_str fd.JOB_REV))).1
        (get_or_create_test_program
          (get_or_create_stage
            (get_or_create_product (get_or_create_company s.store s.company_name).1
              (get_or_create_company s.store s.company_name).2
              (pyOrS (py_strip (pyOrS (py_str fd.PART_TYP) s.product_name)) "DefaultProduct")).1
            (get_or_create_product (get_or_create_company s.store s.company_name).1
              (get_or_create_company s.store s.company_name).2
              (pyOrS (py_strip (pyOrS (py_str fd.PART_TYP) s.product_name)) "DefaultProduct")).2
            (pyOrS (py_strip (pyOrS (py_str fd.MODE_COD) s.stage_name)) "DefaultStage")).1
          (get_or_create_stage
            (get_or_create_product (get_or_create_company s.store s.company_name).1
              (get_or_create_company s.store s.company_name).2
              (pyOrS (py_strip (pyOrS (py_str fd.PART_TYP) s.product_name)) "DefaultProduct")).1
            (get_or_create_product (get_or_create_company s.store s.company_name).1
              (get_or_create_company s.store s.company_name).2
              (pyOrS (py_strip (pyOrS (py_str fd.PART_TYP) s.product_name)) "DefaultProduct")).2
            (pyOrS (py_strip (pyOrS (py_str fd.MODE_COD) s.stage_name)) "DefaultStage")).2
          (pyOrS (py_strip (py_str fd.JOB_NAM)) "DefaultProgram")
          (py_strip (py_str fd.JOB_REV))).2
        (pyOrS (py_strip (py_str fd.LOT_ID)) "UNKNOWN_LOT")
        (py_strip (py_str fd.PART_TYP))
        (stdf_time_to_datetime fd.SETUP_T) (stdf_time_to_datetime fd.START_T)
        ((py_strip (py_str fd.TSTR_TYP)).take 64) ((py_strip (py_str fd.NODE_NAM)).take 64)
        ((py_strip (py_str fd.FACIL_ID)).take 64) ((py_strip (py_str fd.FLOOR_ID)).take 64)
        fd.STAT_NUM ((py_strip (py_str fd.EXEC_TYP)).take 64)
        ((py_strip (py_str fd.EXEC_VER)).take 64)).1.lots := rfl
  have e5 := get_or_create_lot_stable
    (get_or_create_test_program
      (get_or_create_stage
        (get_or_create_product (get_or_create_company s.store s.company_name).1
          (get_or_create_company s.store s.company_name).2
          (pyOrS (py_strip (pyOrS (py_str fd.PART_TYP) s.product_name)) "DefaultProduct")).1
        (get_or_create_product (get_or_create_company s.store s.company_name).1
          (get_or_create_company s.store s.company_name).2
          (pyOrS (py_strip (pyOrS (py_str fd.PART_TYP) s.product_name)) "DefaultProduct")).2
        (pyOrS (py_strip (pyOrS (py_str fd.MODE_COD) s.stage_name)) "DefaultStage")).1
      (get_or_create_stage
        (get_or_create_product (get_or_create_company s.store s.company_name).1
          (get_or_create_company s.store s.company_name).2
          (pyOrS (py_strip (pyOrS (py_str fd.PART_TYP) s.product_name)) "DefaultProduct")).1
        (get_or_create_product (get_or_create_company s.store s.company_name).1
          (get_or_create_company s.store s.company_name).2
          (pyOrS (py_strip (pyOrS (py_str fd.PART_TYP) s.product_name)) "DefaultProduct")).2
        (pyOrS (py_strip (pyOrS (py_str fd.MODE_COD) s.stage_name)) "DefaultStage")).2
      (pyOrS (py_strip (py_str fd.JOB_NAM)) "DefaultProgram")
      (py_strip (py_str fd.JOB_REV))).1
    (on_mir s fd).store
    (get_or_create_test_program
      (get_or_create_stage
        (get_or_create_product (get_or_create_company s.store s.company_name).1
          (get_or_create_company s.store s.company_name).2
          (pyOrS (py_strip (pyOrS (py_str fd.PART_TYP) s.product_name)) "DefaultProduct")).1
        (get_or_create_product (get_or_create_company s.store s.company_name).1
          (get_or_create_company s.store s.company_name).2
          (pyOrS (py_strip (pyOrS (py_str fd.PART_TYP) s.product_name)) "DefaultProduct")).2
        (pyOrS (py_strip (pyOrS (py_str fd.MODE_COD) s.stage_name)) "DefaultStage")).1
      (get_or_create_stage
        (get_or_create_product (get_or_create_company s.store s.company_name).1
          (get_or_create_company s.store s.company_name).2
          (pyOrS (py_strip (pyOrS (py_str fd.PART_TYP) s.product_name)) "DefaultProduct")).1
        (get_or_create_product (get_or_create_company s.store s.company_name).1
          (get_or_create_company s.store s.company_name).2
          (pyOrS (py_strip (pyOrS (py_str fd.PART_TYP) s.product_name)) "DefaultProduct")).2
        (pyOrS (py_strip (pyOrS (py_str fd.MODE_COD) s.stage_name)) "DefaultStage")).2
      (pyOrS (py_strip (py_str fd.JOB_NAM)) "DefaultProgram")
      (py_strip (py_str fd.JOB_REV))).2
    (pyOrS (py_strip (py_str fd.LOT_ID)) "UNKNOWN_LOT")
    (py_strip (py_str fd.PART_TYP))
    (stdf_time_to_datetime fd.SETUP_T) (stdf_time_to_datetime fd.START_T)
    ((py_strip (py_str fd.TSTR_TYP)).take 64) ((py_strip (py_str fd.NODE_NAM)).take 64)
    ((py_strip (py_str fd.FACIL_ID)).take 64) ((py_strip (py_str fd.FLOOR_ID)).take 64)
    fd.STAT_NUM ((py_strip (py_str fd.EXEC_TYP)).take 64)
    ((py_strip (py_str fd.EXEC_VER)).take 64)
    (py_strip (py_str fd.PART_TYP))
    (stdf_time_to_datetime fd'.SETUP_T) (stdf_time_to_datetime fd'.START_T)
    ((py_strip (py_str fd'.TSTR_TYP)).take 64) ((py_strip (py_str fd'.NODE_NAM)).take 64)
    ((py_strip (py_str fd'.FACIL_ID)).take 64) ((py_strip (py_str fd'.FLOOR_ID)).take 64)
    fd'.STAT_NUM ((py_strip (py_str fd'.EXEC_TYP)).take 64)
    ((py_strip (py_str fd'.EXEC_VER)).take 64) hAl
  generalize hgen : on_mir s fd = A at hAcn hApn hAsn e1 e2 e3 e4 e5 ⊢
  simp only [on_mir, get_or_create_hierarchy]
  rw [hAcn, hApn, hAsn, ← k1, ← k2, ← k3, ← k4, ← k5]
  simp only [e1, e2, e3, e4, e5]

/-- C6: upsert is idempotent for every entity with a natural key — a second
lot-start record deriving the same Company/Product/Stage/TestProgram/Lot
natural keys leaves the whole persisted store unchanged (no second row, no
field modified); likewise a second wafer-start with the same wafer key, a
second suite-definition with the same suite name and test number (covering
TestSuite and TestDefinition), and a second site-description with the same
head and site group. -/
theorem c6_upsert_idempotent :
    (∀ (s : SinkState) (fd fd' : MirFd),
        fd.PART_TYP = fd'.PART_TYP → fd.MODE_COD = fd'.MODE_COD →
        fd.JOB_NAM = fd'.JOB_NAM → fd.JOB_REV = fd'.JOB_REV → fd.LOT_ID = fd'.LOT_ID →
        (step (step s (StdfRec.mir fd)) (StdfRec.mir fd')).store =
          (step s (StdfRec.mir fd)).store) ∧
    (∀ (s : SinkState) (fd fd' : WirFd),
        fd.WAFER_ID = fd'.WAFER_ID → fd.HEAD_NUM = fd'.HEAD_NUM →
        (step (step s (StdfRec.wir fd)) (StdfRec.wir fd')).store =
          (step s (StdfRec.wir fd)).store) ∧
    (∀ (s : SinkState) (fd fd' : TsrFd),
        fd.SEQ_NAME = fd'.SEQ_NAME → fd.TEST_NUM = fd'.TEST_NUM →
        (step (step s (StdfRec.tsr fd)) (StdfRec.tsr fd')).store =
          (step s (StdfRec.tsr fd)).store) ∧
    (∀ (s : SinkState) (fd fd' : SdrFd),
        fd.HEAD_NUM = fd'.HEAD_NUM → fd.SITE_GRP = fd'.SITE_GRP →
        (step (step s (StdfRec.sdr fd)) (StdfRec.sdr fd')).store =
          (step s (StdfRec.sdr fd)).store) :=
  ⟨fun s fd fd' k1 k2 k3 k4 k5 => on_mir_idem s fd fd' k1 k2 k3 k4 k5,
   fun s fd fd' k1 k2 => on_wir_idem s fd fd' k1 k2,
   fun s fd fd' k1 k2 => on_tsr_idem s fd fd' k1 k2,
   fun s fd fd' k1 k2 => on_sdr_idem s fd fd' k1 k2⟩

/-- Witness for C6: a second lot-start with the same natural key but a
different start timestamp, and a second identical suite definition, leave the
store unchanged. -/
theorem c6_upsert_idempotent_witness :
    (step (step s0 (StdfRec.mir mirL1))
        (StdfRec.mir { mirL1 with START_T := some 99 })).store =
      (step s0 (StdfRec.mir mirL1)).store ∧
    (step (step (step s0 (StdfRec.mir mirL1))
        (StdfRec.tsr { SEQ_NAME := some "SU", TEST_NUM := some 7 }))
        (StdfRec.tsr { SEQ_NAME := some "SU", TEST_NUM := some 7 })).store =
      (step (step s0 (StdfRec.mir mirL1))
        (StdfRec.tsr { SEQ_NAME := some "SU", TEST_NUM := some 7 })).store :=
  ⟨c6_upsert_idempotent.1 s0 mirL1 { mirL1 with START_T := some 99 } rfl rfl rfl rfl rfl,
   c6_upsert_idempotent.2.2.1 (step s0 (StdfRec.mir mirL1))
     { SEQ_NAME := some "SU", TEST_NUM := some 7 }
     { SEQ_NAME := some "SU", TEST_NUM := some 7 } rfl rfl⟩
